import Mathlib

/-!
# Power BI PBIX resource: lifecycle orchestration and token provider

A shallow embedding of `internal/powerbi/resource_pbix.go`,
`internal/powerbi/provider.go` and `internal/powerbiapi/client_auth.go`.

* `schema.ResourceData` is a record of the attributes the code reads and writes.
  `d.Get` reads a field, `d.Set` writes it, `d.GetOk` reports whether the value is
  non-zero, `d.HasChange` compares the value of the prior state with the current one.
* The API client (`meta.(*powerbiapi.Client)`) is a record of functions over an
  arbitrary remote state `σ`; every call the code issues is appended to a log.
* A Go function returning `error` becomes a function returning
  `Option GoError × World σ`: the error value together with the mutated world,
  so that the state reached on a failing path stays observable.
* A `schema.Set` is represented by the list `Set.List()` yields; the in-place
  mutation of the element maps is a `List.map`.
-/

namespace PowerBI

/-! ## Errors -/

/-- A Go `error` value: either built locally with `fmt.Errorf`, or reported by the
remote API with an HTTP status. -/
inductive GoError where
  | Errorf (msg : String)
  | api (status : Nat) (msg : String)
deriving DecidableEq, Repr

/-! ## Tracked attributes (`schema.ResourceData`) -/

/-- An element of the `parameter` set: `{name, value}`. -/
structure Parameter where
  name : String
  value : String
deriving DecidableEq, Repr

/-- An element of the `datasource` set. -/
structure Datasource where
  type : String
  database : String
  server : String
  url : String
  original_database : String
  original_server : String
  original_url : String
deriving DecidableEq, Repr

/-- Keys of `d.Timeout`. -/
inductive TimeoutKey where
  | TimeoutCreate
  | TimeoutRead
  | TimeoutUpdate
deriving DecidableEq, Repr

/-- The attributes of `powerbi_pbix` held by a `*schema.ResourceData`, the resource
id, the new-resource mark, and the prior-state values of the keys `d.HasChange`
is asked about. -/
structure ResourceData where
  id : String
  isNew : Bool
  workspace_id : String
  name : String
  source : String
  source_hash : String
  skip_report : Bool
  report_id : String
  dataset_id : String
  rebind_dataset_id : String
  report_original_dataset_id : String
  parameter : List Parameter
  datasource : List Datasource
  old_source : String
  old_source_hash : String
  old_rebind_dataset_id : String
  old_parameter : List Parameter
  old_datasource : List Datasource
  timeoutCreate : Nat
  timeoutRead : Nat
  timeoutUpdate : Nat
deriving DecidableEq, Repr

/-- The `ok` result of `d.GetOk(key)` for a string attribute: the value is set to a
non-zero (non-empty) value. -/
def GetOk (v : String) : Bool := decide (v ≠ "")

/-- Embeds `d.IsNewResource()`. -/
def ResourceData.IsNewResource (d : ResourceData) : Bool := d.isNew

/-- Embeds `d.MarkNewResource()`, which the SDK calls before `Create` and only there. -/
def ResourceData.MarkNewResource (d : ResourceData) : ResourceData :=
  { d with isNew := true }

/-- Embeds `d.Timeout(key)`. -/
def ResourceData.Timeout (d : ResourceData) : TimeoutKey → Nat
  | .TimeoutCreate => d.timeoutCreate
  | .TimeoutRead => d.timeoutRead
  | .TimeoutUpdate => d.timeoutUpdate

/-- Embeds `d.HasChange("source")`. -/
def ResourceData.HasChange_source (d : ResourceData) : Bool :=
  decide (d.old_source ≠ d.source)

/-- Embeds `d.HasChange("source_hash")`. -/
def ResourceData.HasChange_source_hash (d : ResourceData) : Bool :=
  decide (d.old_source_hash ≠ d.source_hash)

/-- Embeds `d.HasChange("datasource")`. -/
def ResourceData.HasChange_datasource (d : ResourceData) : Bool :=
  decide (d.old_datasource ≠ d.datasource)

/-- Embeds `d.HasChange("rebind_dataset_id")`. -/
def ResourceData.HasChange_rebind_dataset_id (d : ResourceData) : Bool :=
  decide (d.old_rebind_dataset_id ≠ d.rebind_dataset_id)

/-- Embeds `d.HasChange("parameter")`. -/
def ResourceData.HasChange_parameter (d : ResourceData) : Bool :=
  decide (d.old_parameter ≠ d.parameter)

/-! ## The API client -/

/-- The fields of the response of `PostImportInGroup` the code reads. -/
structure PostImportInGroupResponse where
  ID : String
deriving DecidableEq, Repr

/-- An entry of `im.Reports` or `im.Datasets`. -/
structure ImportItem where
  ID : String
deriving DecidableEq, Repr

/-- The fields of the import returned by `WaitForImportInGroupToSucceed` the code reads. -/
structure GetImportInGroupResponse where
  Name : String
  Reports : List ImportItem
  Datasets : List ImportItem
deriving DecidableEq, Repr

/-- The fields of the response of `GetReportInGroup` the code reads. -/
structure GetReportInGroupResponse where
  DatasetID : String
deriving DecidableEq, Repr

/-- Request body of `RebindReportInGroup`. -/
structure RebindReportInGroupRequest where
  DatasetID : String
deriving DecidableEq, Repr

/-- An item of the request of `UpdateParametersInGroup`. -/
structure UpdateParametersInGroupRequestItem where
  Name : String
  NewValue : String
deriving DecidableEq, Repr

/-- Request body of `UpdateParametersInGroup`. -/
structure UpdateParametersInGroupRequest where
  UpdateDetails : List UpdateParametersInGroupRequestItem
deriving DecidableEq, Repr

/-- Connection details in a datasource update request; each field is a `*string`. -/
structure UpdateDatasourcesInGroupRequestItemConnectionDetails where
  URL : Option String
  Database : Option String
  Server : Option String
deriving DecidableEq, Repr

/-- Selector of a datasource update request item. -/
structure UpdateDatasourcesInGroupRequestItemDatasourceSelector where
  DatasourceType : String
  ConnectionDetails : UpdateDatasourcesInGroupRequestItemConnectionDetails
deriving DecidableEq, Repr

/-- An item of the request of `UpdateDatasourcesInGroup`. -/
structure UpdateDatasourcesInGroupRequestItem where
  ConnectionDetails : UpdateDatasourcesInGroupRequestItemConnectionDetails
  DatasourceSelector : UpdateDatasourcesInGroupRequestItemDatasourceSelector
deriving DecidableEq, Repr

/-- Request body of `UpdateDatasourcesInGroup`. -/
structure UpdateDatasourcesInGroupRequest where
  UpdateDetails : List UpdateDatasourcesInGroupRequestItem
deriving DecidableEq, Repr

/-- A remote parameter as listed by `GetParametersInGroup`. -/
structure GetParametersInGroupResponseItem where
  Name : String
  CurrentValue : String
deriving DecidableEq, Repr

/-- The response of `GetParametersInGroup`. -/
structure GetParametersInGroupResponse where
  Value : List GetParametersInGroupResponseItem
deriving DecidableEq, Repr

/-- Connection details of a live datasource. The code dereferences `URL`, `Server`
and `Database` with `*`, so each is a `*string`; `none` is the nil pointer left by
a field absent from the response. -/
structure GetDatasourcesInGroupResponseItemConnectionDetails where
  URL : Option String
  Database : Option String
  Server : Option String
deriving DecidableEq, Repr

/-- A live datasource as listed by `GetDatasourcesInGroup`. -/
structure GetDatasourcesInGroupResponseItem where
  DatasourceType : String
  ConnectionDetails : GetDatasourcesInGroupResponseItemConnectionDetails
deriving DecidableEq, Repr

/-- The response of `GetDatasourcesInGroup`. -/
structure GetDatasourcesInGroupResponse where
  Value : List GetDatasourcesInGroupResponseItem
deriving DecidableEq, Repr

/-- A remote call, with the arguments it was issued with. -/
inductive Call where
  | PostImportInGroup (groupID name nameConflict : String) (skipReport : Bool)
      (content : String)
  | WaitForImportInGroupToSucceed (groupID importID : String) (timeout : Nat)
  | GetReportInGroup (groupID reportID : String)
  | RebindReportInGroup (groupID reportID : String) (request : RebindReportInGroupRequest)
  | UpdateParametersInGroup (groupID datasetID : String)
      (request : UpdateParametersInGroupRequest)
  | UpdateDatasourcesInGroup (groupID datasetID : String)
      (request : UpdateDatasourcesInGroupRequest)
  | GetParametersInGroup (groupID datasetID : String)
  | GetDatasourcesInGroup (groupID datasetID : String)
  | TakeOverDatasetInGroup (groupID datasetID : String)
  | TakeOverReportInGroup (groupID reportID : String)
deriving DecidableEq, Repr

/-- The collaborators of the lifecycle functions: the methods of
`*powerbiapi.Client` the code calls, as functions of a remote state `σ`, and the
local file system read by `os.Open` (a path yields the file content or an error). -/
structure Client (σ : Type) where
  Open : String → Except GoError String
  PostImportInGroup : σ → String → String → String → Bool → String →
    Except GoError PostImportInGroupResponse × σ
  WaitForImportInGroupToSucceed : σ → String → String → Nat →
    Except GoError GetImportInGroupResponse × σ
  GetReportInGroup : σ → String → String → Except GoError GetReportInGroupResponse × σ
  RebindReportInGroup : σ → String → String → RebindReportInGroupRequest →
    Option GoError × σ
  UpdateParametersInGroup : σ → String → String → UpdateParametersInGroupRequest →
    Option GoError × σ
  UpdateDatasourcesInGroup : σ → String → String → UpdateDatasourcesInGroupRequest →
    Option GoError × σ
  GetParametersInGroup : σ → String → String →
    Except GoError GetParametersInGroupResponse × σ
  GetDatasourcesInGroup : σ → String → String →
    Except GoError GetDatasourcesInGroupResponse × σ
  TakeOverDatasetInGroup : σ → String → String → Option GoError × σ
  TakeOverReportInGroup : σ → String → String → Option GoError × σ

/-- What a lifecycle function acts on: the resource data, the remote state, and
the log of remote calls issued so far, oldest first. -/
structure World (σ : Type) where
  d : ResourceData
  remote : σ
  calls : List Call
deriving DecidableEq

/-- Records a call and the remote state it leaves. -/
def World.issue {σ : Type} (w : World σ) (call : Call) (remote : σ) : World σ :=
  { w with remote := remote, calls := w.calls ++ [call] }

/-- Replaces the resource data. -/
def World.setData {σ : Type} (w : World σ) (d : ResourceData) : World σ :=
  { w with d := d }

/-- The statement pattern `err = f(d, meta); if err != nil { return err }` followed
by the rest of the body. -/
def andThen {σ : Type} (r : Option GoError × World σ)
    (rest : World σ → Option GoError × World σ) : Option GoError × World σ :=
  match r with
  | (some err, w) => (some err, w)
  | (none, w) => rest w

/-! ## `resource_pbix.go` -/

section Lifecycle

variable {σ : Type}

/-- Embeds `openContentReader`: `os.Open(d.Get("source"))`. -/
def openContentReader (c : Client σ) (d : ResourceData) : Except GoError String :=
  c.Open d.source

/-- Embeds `createImport`: open the source, submit it with `CreateOrOverwrite`,
and take the returned import id as the resource id. -/
def createImport (c : Client σ) (w : World σ) : Option GoError × World σ :=
  match openContentReader c w.d with
  | .error err => (some err, w)
  | .ok reader =>
    let r := c.PostImportInGroup w.remote w.d.workspace_id w.d.name "CreateOrOverwrite"
      w.d.skip_report reader
    let w1 := w.issue
      (.PostImportInGroup w.d.workspace_id w.d.name "CreateOrOverwrite" w.d.skip_report reader)
      r.2
    match r.1 with
    | .error err => (some err, w1)
    | .ok resp => (none, w1.setData { w1.d with id := resp.ID })

/-- The `if len(im.Reports) >= 1` block of `readImport`: record the first report,
read it back, and record the dataset it points at. -/
def readImport.captureReport (c : Client σ) (groupID : String)
    (im : GetImportInGroupResponse) (w : World σ) : Option GoError × World σ :=
  match im.Reports with
  | [] => (none, w)
  | report0 :: _ =>
    let w1 := w.setData { w.d with report_id := report0.ID }
    let r := c.GetReportInGroup w1.remote groupID report0.ID
    let w2 := w1.issue (.GetReportInGroup groupID report0.ID) r.2
    match r.1 with
    | .error err => (some err, w2)
    | .ok report =>
      (none, w2.setData { w2.d with report_original_dataset_id := report.DatasetID })

/-- The `if len(im.Datasets) >= 1` block of `readImport`. -/
def readImport.captureDataset (im : GetImportInGroupResponse) (w : World σ) :
    Option GoError × World σ :=
  match im.Datasets with
  | [] => (none, w)
  | dataset0 :: _ => (none, w.setData { w.d with dataset_id := dataset0.ID })

/-- Embeds `readImport`: wait for the import, record its name, and, on a new
resource only, capture the first report, its dataset, and the first dataset. -/
def readImport (c : Client σ) (w : World σ) (timeoutForSuccessfulImport : Nat) :
    Option GoError × World σ :=
  let id := w.d.id
  let groupID := w.d.workspace_id
  let r := c.WaitForImportInGroupToSucceed w.remote groupID id timeoutForSuccessfulImport
  let w1 := w.issue (.WaitForImportInGroupToSucceed groupID id timeoutForSuccessfulImport) r.2
  match r.1 with
  | .error err => (some err, w1)
  | .ok im =>
    let w2 := w1.setData { w1.d with name := im.Name }
    if w2.d.IsNewResource then
      andThen (readImport.captureReport c groupID im w2) (readImport.captureDataset im)
    else
      (none, w2)

/-- The request assembled by the loop of `setPBIXParameters`: one item appended per
declared parameter. -/
def setPBIXParameters.request (parameterList : List Parameter) :
    UpdateParametersInGroupRequest :=
  parameterList.foldl
    (fun request parameterObj =>
      { request with
        UpdateDetails := request.UpdateDetails ++
          [{ Name := parameterObj.name, NewValue := parameterObj.value }] })
    { UpdateDetails := [] }

/-- Embeds `setPBIXParameters`. -/
def setPBIXParameters (c : Client σ) (w : World σ) : Option GoError × World σ :=
  let parameter := w.d.parameter
  let datasetID := w.d.dataset_id
  let datasetOk := GetOk w.d.dataset_id
  let groupID := w.d.workspace_id
  if parameter.length > 0 then
    if !datasetOk then
      (some (.Errorf
        "Unable to update parameters on a PBIX file that does not contain a dataset"), w)
    else
      let updateParameterRequest := setPBIXParameters.request parameter
      let r := c.UpdateParametersInGroup w.remote groupID datasetID updateParameterRequest
      let w1 := w.issue (.UpdateParametersInGroup groupID datasetID updateParameterRequest) r.2
      match r.1 with
      | some err => (some err, w1)
      | none => (none, w1.setData { w1.d with parameter := parameter })
  else
    (none, w)

/-- The inner loop of `readPBIXParameters` for one tracked parameter: every remote
parameter of the same name overwrites the tracked value, in list order. -/
def readPBIXParameters.pull (apiParameters : List GetParametersInGroupResponseItem)
    (stateParameter : Parameter) : Parameter :=
  apiParameters.foldl
    (fun stateParameterObj apiParameter =>
      if stateParameterObj.name = apiParameter.Name then
        { stateParameterObj with value := apiParameter.CurrentValue }
      else stateParameterObj)
    stateParameter

/-- Embeds `readPBIXParameters`. -/
def readPBIXParameters (c : Client σ) (w : World σ) : Option GoError × World σ :=
  let groupID := w.d.workspace_id
  let datasetID := w.d.dataset_id
  let datasetOK := GetOk w.d.dataset_id
  let stateParameters := w.d.parameter
  if !datasetOK then
    (none, w)
  else
    let r := c.GetParametersInGroup w.remote groupID datasetID
    let w1 := w.issue (.GetParametersInGroup groupID datasetID) r.2
    match r.1 with
    | .error err => (some err, w1)
    | .ok apiParameters =>
      (none, w1.setData
        { w1.d with parameter := stateParameters.map (readPBIXParameters.pull apiParameters.Value) })

/-- Modelled from the spec: `emptyStringToNil` is a helper of this package that is not
among the sources; the request fields it fills are the optional `url?`, `database?`,
`server?` of the update request, so the empty string becomes the nil pointer and
any other string a pointer to it. -/
def emptyStringToNil (s : String) : Option String :=
  if s = "" then none else some s

/-- The request item `setPBIXDatasources` builds for one declared rule. -/
def setPBIXDatasources.item (datasourceObj : Datasource) :
    UpdateDatasourcesInGroupRequestItem :=
  { ConnectionDetails :=
      { URL := emptyStringToNil datasourceObj.url
        Database := emptyStringToNil datasourceObj.database
        Server := emptyStringToNil datasourceObj.server }
    DatasourceSelector :=
      { DatasourceType := datasourceObj.type
        ConnectionDetails :=
          { URL := emptyStringToNil datasourceObj.original_url
            Database := emptyStringToNil datasourceObj.original_database
            Server := emptyStringToNil datasourceObj.original_server } } }

/-- The request assembled by the loop of `setPBIXDatasources`. -/
def setPBIXDatasources.request (datasourceList : List Datasource) :
    UpdateDatasourcesInGroupRequest :=
  datasourceList.foldl
    (fun request datasourceObj =>
      { request with
        UpdateDetails := request.UpdateDetails ++ [setPBIXDatasources.item datasourceObj] })
    { UpdateDetails := [] }

/-- Embeds `setPBIXDatasources`. -/
def setPBIXDatasources (c : Client σ) (w : World σ) : Option GoError × World σ :=
  let datasources := w.d.datasource
  let datasetID := w.d.dataset_id
  let datasetOk := GetOk w.d.dataset_id
  let groupID := w.d.workspace_id
  if datasources.length > 0 then
    if !datasetOk then
      (some (.Errorf
        "Unable to update datasources on a PBIX file that does not contain a dataset"), w)
    else
      let updateDatasourcesRequest := setPBIXDatasources.request datasources
      let r := c.UpdateDatasourcesInGroup w.remote groupID datasetID updateDatasourcesRequest
      let w1 := w.issue
        (.UpdateDatasourcesInGroup groupID datasetID updateDatasourcesRequest) r.2
      match r.1 with
      | some err => (some err, w1)
      | none => (none, w1.setData { w1.d with datasource := datasources })
  else
    (none, w)

/-- One disjunction `state == "" || state == *api` of the matching expression.
`none` is the nil pointer dereference; `||` evaluates its right operand only when
the left one is false. -/
def readPBIXDatasources.fieldMatches (state : String) (api : Option String) :
    Option Bool :=
  if state = "" then some true
  else
    match api with
    | none => none
    | some v => some (decide (state = v))

/-- The expression assigned to `apiMatchesState`: url, then server, then database,
`&&` evaluating its right operand only when the left one is true. -/
def readPBIXDatasources.apiMatchesState (stateDatasourceObj : Datasource)
    (details : GetDatasourcesInGroupResponseItemConnectionDetails) : Option Bool :=
  match readPBIXDatasources.fieldMatches stateDatasourceObj.url details.URL with
  | none => none
  | some false => some false
  | some true =>
    match readPBIXDatasources.fieldMatches stateDatasourceObj.server details.Server with
    | none => none
    | some false => some false
    | some true =>
      readPBIXDatasources.fieldMatches stateDatasourceObj.database details.Database

/-- The inner loop of `readPBIXDatasources`: it visits every live datasource (there
is no `break`) and accumulates `anyAPIMatchesState || apiMatchesState`. -/
def readPBIXDatasources.anyAPIMatchesState (stateDatasourceObj : Datasource) :
    List GetDatasourcesInGroupResponseItem → Bool → Option Bool
  | [], anyAPIMatchesState => some anyAPIMatchesState
  | apiDatasource :: rest, anyAPIMatchesState =>
    match readPBIXDatasources.apiMatchesState stateDatasourceObj
        apiDatasource.ConnectionDetails with
    | none => none
    | some apiMatchesState =>
      readPBIXDatasources.anyAPIMatchesState stateDatasourceObj rest
        (anyAPIMatchesState || apiMatchesState)

/-- The `if !anyAPIMatchesState` block: each non-empty target field becomes `"???"`. -/
def readPBIXDatasources.mask (stateDatasourceObj : Datasource) : Datasource :=
  let s1 := if stateDatasourceObj.url ≠ "" then { stateDatasourceObj with url := "???" }
    else stateDatasourceObj
  let s2 := if s1.server ≠ "" then { s1 with server := "???" } else s1
  if s2.database ≠ "" then { s2 with database := "???" } else s2

/-- The body of the outer loop for one tracked rule. -/
def readPBIXDatasources.pullOne (apiDatasources : List GetDatasourcesInGroupResponseItem)
    (stateDatasourceObj : Datasource) : Option Datasource :=
  match readPBIXDatasources.anyAPIMatchesState stateDatasourceObj apiDatasources false with
  | none => none
  | some anyAPIMatchesState =>
    if !anyAPIMatchesState then some (readPBIXDatasources.mask stateDatasourceObj)
    else some stateDatasourceObj

/-- The outer loop of `readPBIXDatasources`, rule by rule; `none` as soon as one
iteration dereferences a nil pointer. -/
def readPBIXDatasources.pullAll (apiDatasources : List GetDatasourcesInGroupResponseItem) :
    List Datasource → Option (List Datasource)
  | [] => some []
  | stateDatasource :: rest =>
    match readPBIXDatasources.pullOne apiDatasources stateDatasource with
    | none => none
    | some pulled =>
      match readPBIXDatasources.pullAll apiDatasources rest with
      | none => none
      | some pulledRest => some (pulled :: pulledRest)

/-- How a Go function ends: it returns, or the goroutine panics on a nil pointer
dereference. -/
inductive Run (α : Type) where
  | returned (result : α)
  | nilPointerDereference
deriving DecidableEq, Repr

/-- Embeds `readPBIXDatasources`. -/
def readPBIXDatasources (c : Client σ) (w : World σ) : Run (Option GoError × World σ) :=
  let datasetID := w.d.dataset_id
  let datasetOk := GetOk w.d.dataset_id
  let groupID := w.d.workspace_id
  let stateDatasources := w.d.datasource
  if !datasetOk then
    .returned (none, w)
  else
    let r := c.GetDatasourcesInGroup w.remote groupID datasetID
    let w1 := w.issue (.GetDatasourcesInGroup groupID datasetID) r.2
    match r.1 with
    | .error err => .returned (some err, w1)
    | .ok apiDatasources =>
      match readPBIXDatasources.pullAll apiDatasources.Value stateDatasources with
      | none => .nilPointerDereference
      | some pulled => .returned (none, w1.setData { w1.d with datasource := pulled })

/-- Embeds `rebindPBIXDataset`. -/
def rebindPBIXDataset (c : Client σ) (w : World σ) : Option GoError × World σ :=
  let groupID := w.d.workspace_id
  let rebindDatasetID := w.d.rebind_dataset_id
  let rebindDatasetOk := GetOk w.d.rebind_dataset_id
  let reportID := w.d.report_id
  let reportOk := GetOk w.d.report_id
  if !rebindDatasetOk || !reportOk then
    (none, w)
  else
    let r := c.RebindReportInGroup w.remote groupID reportID { DatasetID := rebindDatasetID }
    (r.1, w.issue (.RebindReportInGroup groupID reportID { DatasetID := rebindDatasetID }) r.2)

/-- Embeds `unbindPBIXDataset`. -/
def unbindPBIXDataset (c : Client σ) (w : World σ) : Option GoError × World σ :=
  let groupID := w.d.workspace_id
  let originalDatasetID := w.d.report_original_dataset_id
  let datasetOk := GetOk w.d.report_original_dataset_id
  let reportID := w.d.report_id
  let reportOk := GetOk w.d.report_id
  let rebindDatasetOk := GetOk w.d.rebind_dataset_id
  let isRebinded := rebindDatasetOk || w.d.HasChange_rebind_dataset_id
  if !isRebinded || !datasetOk || !reportOk then
    (none, w)
  else
    let r := c.RebindReportInGroup w.remote groupID reportID { DatasetID := originalDatasetID }
    (r.1, w.issue (.RebindReportInGroup groupID reportID { DatasetID := originalDatasetID }) r.2)

/-- Embeds `takeOverPBIXReport`. -/
def takeOverPBIXReport (c : Client σ) (w : World σ) : Option GoError × World σ :=
  let groupID := w.d.workspace_id
  let datasetID := w.d.dataset_id
  let datasetOk := GetOk w.d.dataset_id
  let reportID := w.d.report_id
  let reportOk := GetOk w.d.report_id
  if datasetOk then
    let r := c.TakeOverDatasetInGroup w.remote groupID datasetID
    (r.1, w.issue (.TakeOverDatasetInGroup groupID datasetID) r.2)
  else if reportOk then
    let r := c.TakeOverReportInGroup w.remote groupID reportID
    (r.1, w.issue (.TakeOverReportInGroup groupID reportID) r.2)
  else
    (none, w)

/-- Embeds `createPBIX`. -/
def createPBIX (c : Client σ) (w : World σ) : Option GoError × World σ :=
  andThen (createImport c w) fun w =>
  andThen (readImport c w (w.d.Timeout .TimeoutCreate)) fun w =>
  andThen (setPBIXParameters c w) fun w =>
  andThen (setPBIXDatasources c w) fun w =>
  if GetOk w.d.rebind_dataset_id then
    andThen (rebindPBIXDataset c w) fun w => (none, w)
  else
    (none, w)

/-- Embeds `updatePBIX`. -/
def updatePBIX (c : Client σ) (w : World σ) : Option GoError × World σ :=
  andThen (takeOverPBIXReport c w) fun w =>
  if w.d.HasChange_source || w.d.HasChange_source_hash || w.d.HasChange_datasource then
    andThen (unbindPBIXDataset c w) fun w =>
    andThen (createImport c w) fun w =>
    andThen (readImport c w (w.d.Timeout .TimeoutUpdate)) fun w =>
    andThen (setPBIXParameters c w) fun w =>
    andThen (setPBIXDatasources c w) fun w =>
    andThen (rebindPBIXDataset c w) fun w =>
    (none, w)
  else
    andThen
      (if w.d.HasChange_rebind_dataset_id then
        andThen (unbindPBIXDataset c w) fun w =>
        andThen (rebindPBIXDataset c w) fun w => (none, w)
      else (none, w)) fun w =>
    andThen
      (if w.d.HasChange_parameter then
        andThen (setPBIXParameters c w) fun w => (none, w)
      else (none, w)) fun w =>
    (none, w)

end Lifecycle

/-! ## `provider.go` -/

/-- The provider configuration read by `providerConfigure`, defaults from the
environment already applied. -/
structure ProviderData where
  tenant_id : String
  client_id : String
  client_secret : String
  access_token : String
  username : String
  password : String
deriving DecidableEq, Repr

/-- The client constructor `providerConfigure` returns the result of, with the
arguments it passes. -/
inductive ClientConstructor where
  | NewClientWithAccessToken (accessToken : String)
  | NewClientWithPasswordAuth (tenant clientID clientSecret username password : String)
  | NewClientWithClientCredentialAuth (tenant clientID clientSecret : String)
  | NewClientWithAzureCLIAuth
deriving DecidableEq, Repr

/-- Embeds `providerConfigure`. -/
def providerConfigure (d : ProviderData) : ClientConstructor :=
  let accessToken := d.access_token
  let accessTokenOk := GetOk d.access_token
  if accessTokenOk then
    .NewClientWithAccessToken accessToken
  else
    let username := d.username
    let usernameOk := GetOk d.username
    let password := d.password
    let passwordOk := GetOk d.password
    if usernameOk && passwordOk then
      .NewClientWithPasswordAuth d.tenant_id d.client_id d.client_secret username password
    else
      let tenant_id := d.tenant_id
      let tenant_idOk := GetOk d.tenant_id
      let client_id := d.client_id
      let client_idOk := GetOk d.client_id
      let client_secret := d.client_secret
      let client_secretOk := GetOk d.client_secret
      if tenant_idOk && client_idOk && client_secretOk then
        .NewClientWithClientCredentialAuth tenant_id client_id client_secret
      else
        .NewClientWithAzureCLIAuth

/-! ## `client_auth.go` -/

/-- An `http.Header`: a map from header name to its values, as an association list. -/
abbrev Header := List (String × List String)

/-- Embeds `Header.Set` for a key already in canonical form: the key maps to the
single value afterwards. -/
def Header.Set (h : Header) (key value : String) : Header :=
  (key, [value]) :: h.filter (fun entry => decide (entry.1 ≠ key))

/-- Embeds `Header.Get`: the first value of the key, or the empty string. -/
def Header.Get (h : Header) (key : String) : String :=
  match h.find? (fun entry => decide (entry.1 = key)) with
  | some (_, value :: _) => value
  | _ => ""

/-- The fields of an `http.Request` that matter here. `Header` is a Go map, so a
copy of the request struct shares it with the original. -/
structure Request where
  Method : String
  URL : String
  Header : Header
deriving DecidableEq, Repr

/-- An `http.Response`. -/
structure Response where
  StatusCode : Nat
  Body : String
deriving DecidableEq, Repr

/-- The collaborators of a `bearerTokenRoundTripper`: its `getToken` function over the
state `τ` of the token source, and its inner round tripper over the state `ρ` of the
network. -/
structure Transport (τ ρ : Type) where
  getToken : τ → Except GoError String × τ
  innerRoundTripper : ρ → Request → Except GoError Response × ρ

/-- The state of a `bearerTokenRoundTripper` and of what it talks to: the cached
`token`, the token source with the number of `getToken` invocations so far, and the
network with the requests handed to the inner round tripper so far, oldest first. -/
structure RoundTripper (τ ρ : Type) where
  token : String
  tokenSource : τ
  fetches : Nat
  network : ρ
  forwarded : List Request

/-- Embeds `newBearerTokenRoundTripper`: the `token` field has its zero value. -/
def newBearerTokenRoundTripper {τ ρ : Type} (tokenSource : τ) (network : ρ) :
    RoundTripper τ ρ :=
  { token := "", tokenSource := tokenSource, fetches := 0, network := network, forwarded := [] }

/-- What a call of `RoundTrip` leaves: the returned response or error, the round
tripper, and the caller's request as it reads after the call. -/
structure RoundTripResult (τ ρ : Type) where
  result : Except GoError Response
  rt : RoundTripper τ ρ
  callerRequest : Request

/-- The function literal inside `RoundTrip` that runs under `rt.mux`: fetch and
store the token unless it is already there. -/
def RoundTrip.fill {τ ρ : Type} (t : Transport τ ρ) (rt : RoundTripper τ ρ) :
    Option GoError × RoundTripper τ ρ :=
  if rt.token = "" then
    let r := t.getToken rt.tokenSource
    let rt1 := { rt with tokenSource := r.2, fetches := rt.fetches + 1 }
    match r.1 with
    | .error err => (some err, rt1)
    | .ok token => (none, { rt1 with token := token })
  else
    (none, rt)

/-- The tail of `RoundTrip`: set the header on the map `newRequest` shares with the
caller's request and hand `newRequest` to the inner round tripper. -/
def RoundTrip.forward {τ ρ : Type} (t : Transport τ ρ) (rt : RoundTripper τ ρ)
    (req : Request) : RoundTripResult τ ρ :=
  let header := Header.Set req.Header "Authorization" ("Bearer " ++ rt.token)
  let newRequest : Request := { req with Header := header }
  let r := t.innerRoundTripper rt.network newRequest
  { result := r.1
    rt := { rt with network := r.2, forwarded := rt.forwarded ++ [newRequest] }
    callerRequest := { req with Header := header } }

/-- Embeds `bearerTokenRoundTripper.RoundTrip`, one call at a time. -/
def RoundTrip {τ ρ : Type} (t : Transport τ ρ) (rt : RoundTripper τ ρ) (req : Request) :
    RoundTripResult τ ρ :=
  if rt.token = "" then
    match RoundTrip.fill t rt with
    | (some err, rt1) => { result := .error err, rt := rt1, callerRequest := req }
    | (none, rt1) => RoundTrip.forward t rt1 req
  else
    RoundTrip.forward t rt req

/-- Requests sent one after another through the same round tripper. -/
def roundTripAll {τ ρ : Type} (t : Transport τ ρ) :
    RoundTripper τ ρ → List Request → RoundTripper τ ρ
  | rt, [] => rt
  | rt, req :: rest => roundTripAll t (RoundTrip t rt req).rt rest

/-! ## Lifecycle sequences and example remotes -/

section Sequences

variable {σ : Type}

/-- The create branch of the SDK's `Resource.Apply`: the data is marked new, then
`Create` runs. -/
def applyCreate (c : Client σ) (w : World σ) : Option GoError × World σ :=
  createPBIX c (w.setData w.d.MarkNewResource)

/-- The data an update starts from. The computed `report_original_dataset_id` is
carried over from the state the previous operation left and the data is not marked
new; every other attribute, and every prior-state value, is whatever the plan says. -/
def planUpdate (previous planned : ResourceData) : ResourceData :=
  { planned with
    isNew := false
    report_original_dataset_id := previous.report_original_dataset_id }

/-- The update branch of the SDK's `Resource.Apply`. -/
def applyUpdate (c : Client σ) (w : World σ) (planned : ResourceData) :
    Option GoError × World σ :=
  updatePBIX c (w.setData (planUpdate w.d planned))

/-- Updates applied one after another, each with its own plan and against its own
remote behaviour; the sequence stops at the first update that fails. -/
def applyUpdates : World σ → List (Client σ × ResourceData) → Option GoError × World σ
  | w, [] => (none, w)
  | w, (c, planned) :: rest =>
    andThen (applyUpdate c w planned) fun w1 => applyUpdates w1 rest

/-- A remote whose state is the current dataset of every report and whose rebind call
sets it; every other method is that of `c`. -/
def Client.rebindSets (c : Client (String → String)) : Client (String → String) :=
  { c with
    RebindReportInGroup := fun bindings _ reportID request =>
      (none, fun report => if report = reportID then request.DatasetID else bindings report) }

/-- The fixed answers of an example remote. -/
structure Scenario where
  files : List (String × String)
  importID : String
  im : GetImportInGroupResponse
  parameters : List GetParametersInGroupResponseItem
  datasources : List GetDatasourcesInGroupResponseItem

/-- An example remote in which every call succeeds. Its state lists the rebinds it
has served, latest first; a report never rebound points at the first dataset the
package produced. -/
def Scenario.client (sc : Scenario) : Client (List (String × String)) :=
  { Open := fun path =>
      match sc.files.find? (fun file => decide (file.1 = path)) with
      | some file => .ok file.2
      | none => .error (.Errorf "open: no such file or directory")
    PostImportInGroup := fun s _ _ _ _ _ => (.ok { ID := sc.importID }, s)
    WaitForImportInGroupToSucceed := fun s _ _ _ => (.ok sc.im, s)
    GetReportInGroup := fun s _ reportID =>
      match s.find? (fun binding => decide (binding.1 = reportID)) with
      | some binding => (.ok { DatasetID := binding.2 }, s)
      | none => (.ok { DatasetID := (sc.im.Datasets.map (fun item => item.ID)).headD "" }, s)
    RebindReportInGroup := fun s _ reportID request => (none, (reportID, request.DatasetID) :: s)
    UpdateParametersInGroup := fun s _ _ _ => (none, s)
    UpdateDatasourcesInGroup := fun s _ _ _ => (none, s)
    GetParametersInGroup := fun s _ _ => (.ok { Value := sc.parameters }, s)
    GetDatasourcesInGroup := fun s _ _ => (.ok { Value := sc.datasources }, s)
    TakeOverDatasetInGroup := fun s _ _ => (none, s)
    TakeOverReportInGroup := fun s _ _ => (none, s) }

/-- Resource data with every attribute at its zero value. -/
def ResourceData.zero : ResourceData :=
  { id := "", isNew := false, workspace_id := "", name := "", source := "", source_hash := ""
    skip_report := false, report_id := "", dataset_id := "", rebind_dataset_id := ""
    report_original_dataset_id := "", parameter := [], datasource := []
    old_source := "", old_source_hash := "", old_rebind_dataset_id := ""
    old_parameter := [], old_datasource := []
    timeoutCreate := 300, timeoutRead := 300, timeoutUpdate := 300 }

/-- A datasource rule with every field empty. -/
def Datasource.zero : Datasource :=
  { type := "", database := "", server := "", url := ""
    original_database := "", original_server := "", original_url := "" }

/-- A world with nothing issued yet. -/
def World.start (d : ResourceData) (remote : σ) : World σ :=
  { d := d, remote := remote, calls := [] }

end Sequences

/-! ## Datasource pull -/

/-- The tracked rule of the drift-masking example: `{server: "old", database: "db"}`. -/
def exampleRule : Datasource :=
  { Datasource.zero with server := "old", database := "db" }

/-- A live web datasource: it has a url and neither server nor database. -/
def webDatasource : GetDatasourcesInGroupResponseItem :=
  { DatasourceType := "Web"
    ConnectionDetails := { URL := some "https://example.org/feed", Database := none, Server := none } }

/-- A live SQL datasource on another database. -/
def sqlDatasource : GetDatasourcesInGroupResponseItem :=
  { DatasourceType := "Sql"
    ConnectionDetails := { URL := some "", Database := some "other", Server := some "old" } }

/-- An artifact with dataset `D1` tracking `exampleRule`. -/
def trackedRulePull : World (List (String × String)) :=
  World.start
    { ResourceData.zero with
      id := "I1", workspace_id := "W", dataset_id := "D1", datasource := [exampleRule] } []

/-- A remote whose only live datasource is `webDatasource`. -/
def webScenario : Scenario :=
  { files := [], importID := "I1", im := { Name := "pbix", Reports := [], Datasets := [] }
    parameters := [], datasources := [webDatasource] }

/-- A remote whose only live datasource is `sqlDatasource`. -/
def sqlScenario : Scenario :=
  { files := [], importID := "I1", im := { Name := "pbix", Reports := [], Datasets := [] }
    parameters := [], datasources := [sqlDatasource] }

/-- Whether a live connection equals the rule on each of url, server and database
that is non-empty in the rule; an absent field of the connection equals nothing. -/
def ruleConfirmedBy (rule : Datasource)
    (details : GetDatasourcesInGroupResponseItemConnectionDetails) : Bool :=
  decide ((rule.url = "" ∨ details.URL = some rule.url) ∧
    (rule.server = "" ∨ details.Server = some rule.server) ∧
    (rule.database = "" ∨ details.Database = some rule.database))

/-- Whether url, server and database are all present in a live connection. -/
def fullyPopulated (details : GetDatasourcesInGroupResponseItemConnectionDetails) : Bool :=
  details.URL.isSome && details.Server.isSome && details.Database.isSome

/-! ## The example scenario of the specification -/

/-- The remote of the example scenario: importing yields report `R1` and dataset
`D1`; `fileA` and `fileB` exist locally. -/
def specScenario : Scenario :=
  { files := [("fileA", "content A"), ("fileB", "content B")]
    importID := "I1"
    im := { Name := "sales", Reports := [{ ID := "R1" }], Datasets := [{ ID := "D1" }] }
    parameters := []
    datasources := [] }

/-- The configuration the scenario creates from: `source = fileA`. -/
def specCreate : World (List (String × String)) :=
  World.start
    { ResourceData.zero with workspace_id := "W", name := "sales", source := "fileA" } []

/-- The state the scenario's create leaves, as the next plan sees it. -/
def specCreated : ResourceData :=
  { ResourceData.zero with
    id := "I1", workspace_id := "W", name := "sales", source := "fileA", old_source := "fileA"
    report_id := "R1", dataset_id := "D1", report_original_dataset_id := "D1" }

/-- The plan that declares `rebind_dataset_id = D2`. -/
def specDeclareRebind : ResourceData :=
  { specCreated with rebind_dataset_id := "D2" }

/-- The plan that changes `source` from `fileA` to `fileB` while the rebind to `D2`
stays declared. -/
def specChangeSource : ResourceData :=
  { specCreated with
    source := "fileB", rebind_dataset_id := "D2", old_rebind_dataset_id := "D2" }

/-- The scenario's update of the source, on a remote where `R1` is rebound to `D2`. -/
def specUpdate : World (List (String × String)) :=
  World.start specChangeSource [("R1", "D2")]

/-- The plan that removes the rebind target declared before (`D2`). -/
def specRemoveRebind : World (List (String × String)) :=
  World.start { specCreated with rebind_dataset_id := "", old_rebind_dataset_id := "D2" }
    [("R1", "D2")]

/-- The plan that declares the rebind to `D2`, on a remote where `R1` already points
at `D2`. -/
def specAlreadyRebound : World (List (String × String)) :=
  World.start specDeclareRebind [("R1", "D2")]

/-- The example remote with the report bindings as its state: a report reads back
the dataset it is currently bound to. -/
def Scenario.bindingClient (sc : Scenario) : Client (String → String) :=
  { Open := sc.client.Open
    PostImportInGroup := fun s _ _ _ _ _ => (.ok { ID := sc.importID }, s)
    WaitForImportInGroupToSucceed := fun s _ _ _ => (.ok sc.im, s)
    GetReportInGroup := fun s _ reportID => (.ok { DatasetID := s reportID }, s)
    RebindReportInGroup := fun s _ reportID request =>
      (none, fun report => if report = reportID then request.DatasetID else s report)
    UpdateParametersInGroup := fun s _ _ _ => (none, s)
    UpdateDatasourcesInGroup := fun s _ _ _ => (none, s)
    GetParametersInGroup := fun s _ _ => (.ok { Value := sc.parameters }, s)
    GetDatasourcesInGroup := fun s _ _ => (.ok { Value := sc.datasources }, s)
    TakeOverDatasetInGroup := fun s _ _ => (none, s)
    TakeOverReportInGroup := fun s _ _ => (none, s) }

/-- The plan that declares the rebind to `D2`, on a remote where `R1` points at its
original dataset `D1`. -/
def specBound : World (String → String) :=
  World.start specDeclareRebind (fun _ => "D1")

/-! ## Parameter pull: examples -/

/-- Tracked parameters `A` and `B`. -/
def trackedAB : List Parameter :=
  [{ name := "A", value := "1" }, { name := "B", value := "2" }]

/-- A remote that holds parameter `A` only, with current value `10`. -/
def remoteOnlyA : Scenario :=
  { files := [], importID := "I1"
    im := { Name := "sales", Reports := [], Datasets := [{ ID := "D1" }] }
    parameters := [{ Name := "A", CurrentValue := "10" }, { Name := "C", CurrentValue := "30" }]
    datasources := [] }

/-- An artifact with dataset `D1` tracking `A` and `B`. -/
def pullAB : World (List (String × String)) :=
  World.start
    { ResourceData.zero with id := "I1", workspace_id := "W", dataset_id := "D1"
                             parameter := trackedAB } []

/-! ## Push of declared parameters: examples -/

/-- An artifact with dataset `D1` declaring `A` and `B`. -/
def pushAB : World (List (String × String)) := pullAB

/-- An artifact without a dataset declaring `A` and `B`. -/
def pushNoDataset : World (List (String × String)) :=
  World.start { ResourceData.zero with id := "I1", workspace_id := "W", parameter := trackedAB } []

/-! ## Import result capture: examples -/

/-- An artifact brought under management by its import id alone (the resource's
importer passes the id through): not new, no report or dataset recorded yet. -/
def adoptedArtifact : World (List (String × String)) :=
  World.start { ResourceData.zero with id := "I1", workspace_id := "W" } []

/-- An artifact in the middle of its create: marked new, the import `I1` submitted. -/
def newArtifact : World (List (String × String)) :=
  World.start { ResourceData.zero with id := "I1", workspace_id := "W", isNew := true } []

/-! ## Provider configuration: examples -/

/-- A configuration with every field set. -/
def everythingSet : ProviderData :=
  { tenant_id := "t", client_id := "c", client_secret := "s", access_token := "tok"
    username := "u", password := "p" }

/-- A configuration with a username but no password, and the client credentials. -/
def usernameOnly : ProviderData :=
  { tenant_id := "t", client_id := "c", client_secret := "s", access_token := ""
    username := "u", password := "" }

/-! ## Token provider: examples -/

/-- A token source whose fetch returns without an error but with an empty token, as
`getAuthTokenWithPassword` does on a 200 response whose JSON body has no
`access_token` field; the network answers every request with 401. -/
def emptyTokenTransport : Transport Unit Unit :=
  { getToken := fun s => (.ok "", s)
    innerRoundTripper := fun s _ => (.ok { StatusCode := 401, Body := "" }, s) }

/-- A token source that hands out the tokens of its state one by one, a different
one at every fetch, and fails when none is left; the network answers every request
with 200. -/
def queueTransport : Transport (List String) Unit :=
  { getToken := fun tokens =>
      match tokens with
      | [] => (.error (.api 400 "invalid_grant"), [])
      | token :: rest => (.ok token, rest)
    innerRoundTripper := fun s _ => (.ok { StatusCode := 200, Body := "" }, s) }

/-- Two requests to the API. -/
def twoRequests : List Request :=
  [{ Method := "GET", URL := "https://api.powerbi.com/v1.0/myorg/groups", Header := [] },
    { Method := "GET", URL := "https://api.powerbi.com/v1.0/myorg/reports",
      Header := [("Accept", ["application/json"])] }]

/-- The request as `RoundTrip` forwards it once `token` is cached. -/
def withBearer (token : String) (req : Request) : Request :=
  { req with Header := Header.Set req.Header "Authorization" ("Bearer " ++ token) }

/-- A request to the API as a caller builds it: no `Authorization` header. -/
def groupsRequest : Request :=
  { Method := "GET", URL := "https://api.powerbi.com/v1.0/myorg/groups"
    Header := [("Accept", ["application/json"])] }

/-! ## `readPBIX` -/

/-- Embeds `readPBIX`. The helper `isHTTP404Error` of this package is not among the
sources and is taken as a parameter: it is asked about the error `readImport`
returned, nil included. -/
def readPBIX {σ : Type} (isHTTP404Error : Option GoError → Bool) (c : Client σ)
    (w : World σ) : Run (Option GoError × World σ) :=
  let r := readImport c w (w.d.Timeout .TimeoutRead)
  if isHTTP404Error r.1 then
    .returned (none, r.2.setData { r.2.d with id := "" })
  else
    match r with
    | (some err, w1) => .returned (some err, w1)
    | (none, w1) =>
      match readPBIXParameters c w1 with
      | (some err, w2) => .returned (some err, w2)
      | (none, w2) =>
        match readPBIXDatasources c w2 with
        | .nilPointerDereference => .nilPointerDereference
        | .returned (some err, w3) => .returned (some err, w3)
        | .returned (none, w3) => .returned (none, w3)

/-- Modelled from the spec: `isHTTP404Error`, not among the sources, recognises the
`NotFoundError` of a read against a deleted remote resource, that is an error the
API reported with HTTP status 404; nil is not one. -/
def statusIs404 : Option GoError → Bool
  | some (.api 404 _) => true
  | _ => false

/-- Whether a call is a parameter or datasource read. -/
def Call.isPull : Call → Bool
  | .GetParametersInGroup _ _ => true
  | .GetDatasourcesInGroup _ _ => true
  | _ => false

/-- The example remote, except that the import lookup fails with `err`. -/
def Scenario.clientLookupFails (sc : Scenario) (err : GoError) :
    Client (List (String × String)) :=
  { sc.client with WaitForImportInGroupToSucceed := fun s _ _ _ => (.error err, s) }

/-- The state of the example artifact at a refresh. -/
def specRefresh : World (List (String × String)) :=
  World.start specCreated []

/-! ## Datasource pull on partially populated connections: examples -/

/-- A tracked rule that targets the url of `webDatasource`. -/
def webRule : Datasource :=
  { Datasource.zero with type := "Web", url := "https://example.org/feed" }

/-- A live SQL datasource as the API lists it: server and database, no url. -/
def sqlOnlyDatasource : GetDatasourcesInGroupResponseItem :=
  { DatasourceType := "Sql"
    ConnectionDetails := { URL := none, Database := some "db", Server := some "old" } }

/-- A dataset with a web and a SQL datasource. -/
def mixedScenario : Scenario :=
  { files := [], importID := "I1", im := { Name := "pbix", Reports := [], Datasets := [] }
    parameters := [], datasources := [webDatasource, sqlOnlyDatasource] }

/-- An artifact with dataset `D1` tracking `webRule`. -/
def webRulePull : World (List (String × String)) :=
  World.start
    { ResourceData.zero with
      id := "I1", workspace_id := "W", dataset_id := "D1", datasource := [webRule] } []

/-! ## Remote states along an update that re-submits the package -/

section UpdateStates

variable {σ : Type}

/-- The remote state the take-over call of `updatePBIX` leaves, for an artifact with a
dataset or a report. -/
def updatePBIX.remoteAfterTakeOver (c : Client σ) (w : World σ) : σ :=
  if w.d.dataset_id ≠ "" then
    (c.TakeOverDatasetInGroup w.remote w.d.workspace_id w.d.dataset_id).2
  else (c.TakeOverReportInGroup w.remote w.d.workspace_id w.d.report_id).2

/-- The remote state the rebind of the report to its original dataset leaves when it
follows the take-over. -/
def updatePBIX.remoteAfterUnbind (c : Client σ) (w : World σ) : σ :=
  (c.RebindReportInGroup (updatePBIX.remoteAfterTakeOver c w) w.d.workspace_id w.d.report_id
    { DatasetID := w.d.report_original_dataset_id }).2

/-- The remote state the pushes of the declared parameters and datasource rules
leave, starting from `s`. -/
def updatePBIX.remoteAfterPushes (c : Client σ) (w : World σ) (s : σ) : σ :=
  let s1 :=
    if w.d.parameter = [] then s
    else (c.UpdateParametersInGroup s w.d.workspace_id w.d.dataset_id
      (setPBIXParameters.request w.d.parameter)).2
  if w.d.datasource = [] then s1
  else (c.UpdateDatasourcesInGroup s1 w.d.workspace_id w.d.dataset_id
    (setPBIXDatasources.request w.d.datasource)).2

end UpdateStates

/-- The scenario's update of the source, with a new source path at which there is no
file. -/
def specMissingSource : World (List (String × String)) :=
  World.start { specChangeSource with source := "fileC" } [("R1", "D2")]

/-! # Theorems -/

/-! ## C1: datasource pull -/

theorem readPBIXDatasources.fieldMatches_some (state v : String) :
    readPBIXDatasources.fieldMatches state (some v) =
      some (decide (state = "" ∨ some v = some state)) := by
  unfold readPBIXDatasources.fieldMatches
  by_cases h : state = ""
  · simp [h]
  · simp [h, eq_comm]

theorem readPBIXDatasources.apiMatchesState_populated (rule : Datasource)
    (details : GetDatasourcesInGroupResponseItemConnectionDetails)
    (h : fullyPopulated details = true) :
    readPBIXDatasources.apiMatchesState rule details = some (ruleConfirmedBy rule details) := by
  obtain ⟨url, database, server⟩ := details
  cases url with
  | none => simp [fullyPopulated] at h
  | some u =>
    cases server with
    | none => simp [fullyPopulated] at h
    | some sv =>
      cases database with
      | none => simp [fullyPopulated] at h
      | some db =>
        simp only [readPBIXDatasources.apiMatchesState, readPBIXDatasources.fieldMatches_some,
          ruleConfirmedBy, Bool.decide_and]
        generalize decide (rule.url = "" ∨ some u = some rule.url) = b1
        generalize decide (rule.server = "" ∨ some sv = some rule.server) = b2
        cases b1 <;> cases b2 <;> rfl

theorem readPBIXDatasources.anyAPIMatchesState_populated (rule : Datasource)
    (api : List GetDatasourcesInGroupResponseItem)
    (h : ∀ a ∈ api, fullyPopulated a.ConnectionDetails = true) (acc : Bool) :
    readPBIXDatasources.anyAPIMatchesState rule api acc =
      some (acc || api.any (fun a => ruleConfirmedBy rule a.ConnectionDetails)) := by
  induction api generalizing acc with
  | nil => simp [readPBIXDatasources.anyAPIMatchesState]
  | cons a rest ih =>
    have ha := h a (List.mem_cons_self a rest)
    have hrest : ∀ b ∈ rest, fullyPopulated b.ConnectionDetails = true :=
      fun b hb => h b (List.mem_cons_of_mem a hb)
    simp [readPBIXDatasources.anyAPIMatchesState,
      readPBIXDatasources.apiMatchesState_populated rule a.ConnectionDetails ha, ih hrest,
      Bool.or_assoc]

/-- The masking step touches url, server and database only: each becomes `"???"` when
it was non-empty and stays empty otherwise; type and the original fields are kept. -/
theorem readPBIXDatasources.mask_fields (rule : Datasource) :
    (readPBIXDatasources.mask rule).url = (if rule.url = "" then "" else "???") ∧
    (readPBIXDatasources.mask rule).server = (if rule.server = "" then "" else "???") ∧
    (readPBIXDatasources.mask rule).database = (if rule.database = "" then "" else "???") ∧
    (readPBIXDatasources.mask rule).type = rule.type ∧
    (readPBIXDatasources.mask rule).original_url = rule.original_url ∧
    (readPBIXDatasources.mask rule).original_server = rule.original_server ∧
    (readPBIXDatasources.mask rule).original_database = rule.original_database := by
  unfold readPBIXDatasources.mask
  by_cases hu : rule.url = "" <;> by_cases hs : rule.server = "" <;>
    by_cases hd : rule.database = "" <;> simp [hu, hs, hd]

/-- On live connections that all carry url, server and database, the pull of one
tracked rule returns it unchanged when some connection confirms it and masked
otherwise. -/
theorem readPBIXDatasources.pullOne_populated (rule : Datasource)
    (api : List GetDatasourcesInGroupResponseItem)
    (h : ∀ a ∈ api, fullyPopulated a.ConnectionDetails = true) :
    readPBIXDatasources.pullOne api rule =
      some (if api.any (fun a => ruleConfirmedBy rule a.ConnectionDetails) then rule
        else readPBIXDatasources.mask rule) := by
  unfold readPBIXDatasources.pullOne
  rw [readPBIXDatasources.anyAPIMatchesState_populated rule api h false]
  cases api.any (fun a => ruleConfirmedBy rule a.ConnectionDetails) <;> simp

theorem readPBIXDatasources.pullAll_populated
    (api : List GetDatasourcesInGroupResponseItem)
    (h : ∀ a ∈ api, fullyPopulated a.ConnectionDetails = true) (rules : List Datasource) :
    readPBIXDatasources.pullAll api rules =
      some (rules.map (fun rule =>
        if api.any (fun a => ruleConfirmedBy rule a.ConnectionDetails) then rule
        else readPBIXDatasources.mask rule)) := by
  induction rules with
  | nil => rfl
  | cons rule rest ih =>
    simp [readPBIXDatasources.pullAll, readPBIXDatasources.pullOne_populated rule api h, ih]

/-- On a dataset whose live connections all carry url, server and database, the
datasource pull returns, for every tracked rule, the rule itself when some
connection confirms it and the masked rule otherwise. -/
theorem readPBIXDatasources_populated {σ : Type} (c : Client σ) (w : World σ)
    (api : GetDatasourcesInGroupResponse) (s1 : σ)
    (hds : w.d.dataset_id ≠ "")
    (hget : c.GetDatasourcesInGroup w.remote w.d.workspace_id w.d.dataset_id = (.ok api, s1))
    (hpop : ∀ a ∈ api.Value, fullyPopulated a.ConnectionDetails = true) :
    readPBIXDatasources c w =
      .returned (none,
        { d := { w.d with
              datasource := w.d.datasource.map (fun rule =>
                if api.Value.any (fun a => ruleConfirmedBy rule a.ConnectionDetails) then rule
                else readPBIXDatasources.mask rule) }
          remote := s1
          calls := w.calls ++ [Call.GetDatasourcesInGroup w.d.workspace_id w.d.dataset_id] }) := by
  simp [readPBIXDatasources, GetOk, hds, hget,
    readPBIXDatasources.pullAll_populated api.Value hpop, World.issue, World.setData]

/-- The drift-masking example on a fully populated connection: the only live
connection is on database `other`, so the rule `{server: "old", database: "db"}`
comes back with server and database masked and url still empty. -/
theorem readPBIXDatasources_masks_unconfirmed :
    readPBIXDatasources sqlScenario.client trackedRulePull =
      .returned (none,
        { d := { trackedRulePull.d with
              datasource := [{ exampleRule with server := "???", database := "???" }] }
          remote := []
          calls := [Call.GetDatasourcesInGroup "W" "D1"] }) := by
  decide

/-- C1 (the code at the failing input). An artifact with dataset `D1` tracks the rule
`{server: "old", database: "db"}` and the only live connection is a web datasource,
which has a url and no server or database. No live connection has database `"db"`,
so the rule should come back with server and database masked; instead comparing the
rule's server with the absent one dereferences a nil pointer and the pull returns
nothing. -/
theorem readPBIXDatasources_absent_server_faults :
    readPBIXDatasources webScenario.client trackedRulePull = .nilPointerDereference ∧
    (webScenario.datasources.any (fun a => ruleConfirmedBy exampleRule a.ConnectionDetails)) =
      false := by
  decide

/-! ## C2: the original binding is set once -/

section SetOnce

variable {σ : Type}

theorem andThen_snd_of (P : World σ → Prop) (r : Option GoError × World σ)
    (rest : World σ → Option GoError × World σ) (hr : P r.2)
    (hrest : ∀ w, P w → P (rest w).2) : P (andThen r rest).2 := by
  obtain ⟨err, w⟩ := r
  cases err with
  | none => exact hrest w hr
  | some e => exact hr

theorem takeOverPBIXReport_d (c : Client σ) (w : World σ) :
    (takeOverPBIXReport c w).2.d = w.d := by
  unfold takeOverPBIXReport
  by_cases h1 : GetOk w.d.dataset_id = true
  · simp [h1, World.issue]
  · by_cases h2 : GetOk w.d.report_id = true <;> simp [h1, h2, World.issue]

theorem rebindPBIXDataset_d (c : Client σ) (w : World σ) :
    (rebindPBIXDataset c w).2.d = w.d := by
  unfold rebindPBIXDataset
  simp only []
  split <;> rfl

theorem unbindPBIXDataset_d (c : Client σ) (w : World σ) :
    (unbindPBIXDataset c w).2.d = w.d := by
  unfold unbindPBIXDataset
  simp only []
  split <;> rfl

theorem setPBIXParameters_d (c : Client σ) (w : World σ) :
    (setPBIXParameters c w).2.d = w.d := by
  unfold setPBIXParameters
  simp only []
  split
  · split
    · rfl
    · split <;> simp [World.issue, World.setData]
  · rfl

theorem setPBIXDatasources_d (c : Client σ) (w : World σ) :
    (setPBIXDatasources c w).2.d = w.d := by
  unfold setPBIXDatasources
  simp only []
  split
  · split
    · rfl
    · split <;> simp [World.issue, World.setData]
  · rfl

theorem createImport_d (c : Client σ) (w : World σ) :
    (createImport c w).2.d = { w.d with id := (createImport c w).2.d.id } := by
  unfold createImport
  split
  · rfl
  · simp only []
    split <;> rfl

theorem readImport_d_of_not_new (c : Client σ) (w : World σ) (timeout : Nat)
    (h : w.d.isNew = false) :
    (readImport c w timeout).2.d = { w.d with name := (readImport c w timeout).2.d.name } := by
  unfold readImport
  simp only []
  split
  · rfl
  · simp [ResourceData.IsNewResource, World.setData, World.issue, h]

theorem andThen_keeps (v : String) (r : Option GoError × World σ)
    (rest : World σ → Option GoError × World σ)
    (hr : r.2.d.report_original_dataset_id = v ∧ r.2.d.isNew = false)
    (hrest : ∀ w, (w.d.report_original_dataset_id = v ∧ w.d.isNew = false) →
      ((rest w).2.d.report_original_dataset_id = v ∧ (rest w).2.d.isNew = false)) :
    (andThen r rest).2.d.report_original_dataset_id = v ∧ (andThen r rest).2.d.isNew = false :=
  andThen_snd_of (fun w => w.d.report_original_dataset_id = v ∧ w.d.isNew = false)
    r rest hr hrest

/-- What an update leaves alone: the captured original dataset and the new-resource
mark. -/
theorem updatePBIX_keeps (c : Client σ) (w : World σ) (h : w.d.isNew = false) :
    (updatePBIX c w).2.d.report_original_dataset_id = w.d.report_original_dataset_id ∧
    (updatePBIX c w).2.d.isNew = false := by
  have key : ∀ w1 : World σ,
      (w1.d.report_original_dataset_id = w.d.report_original_dataset_id ∧ w1.d.isNew = false) →
      ∀ f : World σ → Option GoError × World σ, (∀ w2, (f w2).2.d = w2.d) →
      ((f w1).2.d.report_original_dataset_id = w.d.report_original_dataset_id ∧
        (f w1).2.d.isNew = false) := by
    intro w1 h1 f hf
    rw [hf w1]
    exact h1
  unfold updatePBIX
  refine andThen_keeps _ _ _ ?_ ?_
  · exact key w ⟨rfl, h⟩ _ (takeOverPBIXReport_d c)
  · intro w1 h1
    split
    · refine andThen_keeps _ _ _ (key w1 h1 _ (unbindPBIXDataset_d c)) ?_
      intro w2 h2
      refine andThen_keeps _ _ _ ?_ ?_
      · rw [createImport_d]
        exact h2
      · intro w3 h3
        refine andThen_keeps _ _ _ ?_ ?_
        · rw [readImport_d_of_not_new c w3 _ h3.2]
          exact h3
        · intro w4 h4
          refine andThen_keeps _ _ _ (key w4 h4 _ (setPBIXParameters_d c)) ?_
          intro w5 h5
          refine andThen_keeps _ _ _ (key w5 h5 _ (setPBIXDatasources_d c)) ?_
          intro w6 h6
          refine andThen_keeps _ _ _ (key w6 h6 _ (rebindPBIXDataset_d c)) ?_
          intro w7 h7
          exact h7
    · refine andThen_keeps _ _ _ ?_ ?_
      · split
        · refine andThen_keeps _ _ _ (key w1 h1 _ (unbindPBIXDataset_d c)) ?_
          intro w2 h2
          refine andThen_keeps _ _ _ (key w2 h2 _ (rebindPBIXDataset_d c)) ?_
          intro w3 h3
          exact h3
        · exact h1
      · intro w2 h2
        refine andThen_keeps _ _ _ ?_ ?_
        · split
          · refine andThen_keeps _ _ _ (key w2 h2 _ (setPBIXParameters_d c)) ?_
            intro w3 h3
            exact h3
          · exact h2
        · intro w3 h3
          exact h3

theorem applyUpdates_keeps (updates : List (Client σ × ResourceData)) (w : World σ) :
    (applyUpdates w updates).2.d.report_original_dataset_id =
      w.d.report_original_dataset_id := by
  induction updates generalizing w with
  | nil => rfl
  | cons step rest ih =>
    obtain ⟨c, planned⟩ := step
    unfold applyUpdates
    refine andThen_snd_of
      (fun w1 => w1.d.report_original_dataset_id = w.d.report_original_dataset_id) _ _ ?_ ?_
    · exact (updatePBIX_keeps c (w.setData (planUpdate w.d planned)) rfl).1
    · intro w1 h1
      show (applyUpdates w1 rest).2.d.report_original_dataset_id = _
      rw [ih w1]
      exact h1

theorem createImport_ok (c : Client σ) (w : World σ) (reader : String)
    (resp : PostImportInGroupResponse) (s1 : σ)
    (hopen : c.Open w.d.source = .ok reader)
    (hpost : c.PostImportInGroup w.remote w.d.workspace_id w.d.name "CreateOrOverwrite"
      w.d.skip_report reader = (.ok resp, s1)) :
    createImport c w =
      (none,
        { d := { w.d with id := resp.ID }
          remote := s1
          calls := w.calls ++ [.PostImportInGroup w.d.workspace_id w.d.name "CreateOrOverwrite"
            w.d.skip_report reader] }) := by
  simp [createImport, openContentReader, hopen, hpost, World.issue, World.setData]

theorem readImport_captures (c : Client σ) (w : World σ) (timeout : Nat)
    (im : GetImportInGroupResponse) (s2 s3 : σ) (report0 : ImportItem)
    (reports : List ImportItem) (report : GetReportInGroupResponse)
    (hnew : w.d.isNew = true)
    (hwait : c.WaitForImportInGroupToSucceed w.remote w.d.workspace_id w.d.id timeout =
      (.ok im, s2))
    (hreports : im.Reports = report0 :: reports)
    (hget : c.GetReportInGroup s2 w.d.workspace_id report0.ID = (.ok report, s3)) :
    (readImport c w timeout).1 = none ∧
    (readImport c w timeout).2.d.report_original_dataset_id = report.DatasetID ∧
    (readImport c w timeout).2.d.report_id = report0.ID := by
  unfold readImport
  simp only [hwait, World.issue, World.setData, ResourceData.IsNewResource, hnew, if_true,
    readImport.captureReport, hreports, hget, andThen, readImport.captureDataset]
  cases im.Datasets <;> simp

/-- C2. Create a PBIX (the data marked new, as the SDK does before `Create`), then
apply any list of updates, each with any planned attribute values (source,
source_hash, datasource, parameter, rebind_dataset_id, ...) and any remote
behaviour. After the updates `report_original_dataset_id` is what create left.
And what create left is the dataset id `GetReportInGroup` returned for the first
report of the package, read right after the wait, whenever the submit and the wait
of the create succeeded and produced a report that could be read. -/
theorem report_original_dataset_id_set_once (c : Client σ) (w : World σ)
    (updates : List (Client σ × ResourceData)) :
    (applyUpdates (applyCreate c w).2 updates).2.d.report_original_dataset_id =
      (applyCreate c w).2.d.report_original_dataset_id ∧
    (∀ (reader : String) (resp : PostImportInGroupResponse) (s1 s2 s3 : σ)
        (im : GetImportInGroupResponse) (report0 : ImportItem) (reports : List ImportItem)
        (report : GetReportInGroupResponse),
      c.Open w.d.source = .ok reader →
      c.PostImportInGroup w.remote w.d.workspace_id w.d.name "CreateOrOverwrite"
        w.d.skip_report reader = (.ok resp, s1) →
      c.WaitForImportInGroupToSucceed s1 w.d.workspace_id resp.ID w.d.timeoutCreate =
        (.ok im, s2) →
      im.Reports = report0 :: reports →
      c.GetReportInGroup s2 w.d.workspace_id report0.ID = (.ok report, s3) →
      (applyCreate c w).2.d.report_original_dataset_id = report.DatasetID) := by
  refine ⟨applyUpdates_keeps updates _, ?_⟩
  intro reader resp s1 s2 s3 im report0 reports report hopen hpost hwait hreports hget
  unfold applyCreate createPBIX
  rw [createImport_ok c (w.setData w.d.MarkNewResource) reader resp s1 hopen hpost]
  simp only [andThen]
  have hread := readImport_captures c
    { d := { (w.setData w.d.MarkNewResource).d with id := resp.ID }
      remote := s1
      calls := (w.setData w.d.MarkNewResource).calls ++
        [.PostImportInGroup (w.setData w.d.MarkNewResource).d.workspace_id
          (w.setData w.d.MarkNewResource).d.name "CreateOrOverwrite"
          (w.setData w.d.MarkNewResource).d.skip_report reader] }
    w.d.timeoutCreate im s2 s3 report0 reports report rfl hwait hreports hget
  refine andThen_snd_of (fun w1 => w1.d.report_original_dataset_id = report.DatasetID)
    _ _ hread.2.1 ?_
  intro w1 h1
  refine andThen_snd_of (fun w1 => w1.d.report_original_dataset_id = report.DatasetID)
    _ _ (by simpa [setPBIXParameters_d] using h1) ?_
  intro w2 h2
  refine andThen_snd_of (fun w1 => w1.d.report_original_dataset_id = report.DatasetID)
    _ _ (by simpa [setPBIXDatasources_d] using h2) ?_
  intro w3 h3
  beta_reduce
  split
  · refine andThen_snd_of (fun w1 => w1.d.report_original_dataset_id = report.DatasetID)
      _ _ (by simpa [rebindPBIXDataset_d] using h3) ?_
    intro w4 h4
    exact h4
  · exact h3

end SetOnce

/-- C2 (witness). The example scenario: create from `fileA` captures `D1`; declaring
the rebind to `D2` and then changing the source to `fileB` both succeed and leave
`report_original_dataset_id = D1`. -/
theorem report_original_dataset_id_set_once_witness :
    (applyCreate specScenario.client specCreate).1 = none ∧
    (applyUpdates (applyCreate specScenario.client specCreate).2
      [(specScenario.client, specDeclareRebind), (specScenario.client, specChangeSource)]).1 =
      none ∧
    (applyUpdates (applyCreate specScenario.client specCreate).2
      [(specScenario.client, specDeclareRebind),
        (specScenario.client, specChangeSource)]).2.d.report_original_dataset_id = "D1" :=
  ⟨by decide, by decide,
    (report_original_dataset_id_set_once specScenario.client specCreate
      [(specScenario.client, specDeclareRebind), (specScenario.client, specChangeSource)]).1.trans
      ((report_original_dataset_id_set_once specScenario.client specCreate
        [(specScenario.client, specDeclareRebind), (specScenario.client, specChangeSource)]).2
        "content A" { ID := "I1" } [] [] []
        { Name := "sales", Reports := [{ ID := "R1" }], Datasets := [{ ID := "D1" }] }
        { ID := "R1" } [] { DatasetID := "D1" } rfl rfl rfl rfl rfl)⟩

/-! ## Normal forms of the lifecycle steps -/

section Steps

variable {σ : Type}

theorem andThen_none (r : Option GoError × World σ)
    (rest : World σ → Option GoError × World σ) (h : (andThen r rest).1 = none) :
    r.1 = none ∧ andThen r rest = rest r.2 := by
  obtain ⟨err, w⟩ := r
  cases err with
  | none => exact ⟨rfl, rfl⟩
  | some e => simp [andThen] at h

theorem rebindPBIXDataset_eq (c : Client σ) (w : World σ) :
    rebindPBIXDataset c w =
      if w.d.rebind_dataset_id ≠ "" ∧ w.d.report_id ≠ "" then
        ((c.RebindReportInGroup w.remote w.d.workspace_id w.d.report_id
            { DatasetID := w.d.rebind_dataset_id }).1,
          w.issue (.RebindReportInGroup w.d.workspace_id w.d.report_id
            { DatasetID := w.d.rebind_dataset_id })
            (c.RebindReportInGroup w.remote w.d.workspace_id w.d.report_id
              { DatasetID := w.d.rebind_dataset_id }).2)
      else (none, w) := by
  unfold rebindPBIXDataset
  by_cases h1 : w.d.rebind_dataset_id = "" <;> by_cases h2 : w.d.report_id = "" <;>
    simp [GetOk, h1, h2]

theorem unbindPBIXDataset_eq (c : Client σ) (w : World σ) :
    unbindPBIXDataset c w =
      if (w.d.rebind_dataset_id ≠ "" ∨ w.d.old_rebind_dataset_id ≠ w.d.rebind_dataset_id) ∧
          w.d.report_original_dataset_id ≠ "" ∧ w.d.report_id ≠ "" then
        ((c.RebindReportInGroup w.remote w.d.workspace_id w.d.report_id
            { DatasetID := w.d.report_original_dataset_id }).1,
          w.issue (.RebindReportInGroup w.d.workspace_id w.d.report_id
            { DatasetID := w.d.report_original_dataset_id })
            (c.RebindReportInGroup w.remote w.d.workspace_id w.d.report_id
              { DatasetID := w.d.report_original_dataset_id }).2)
      else (none, w) := by
  unfold unbindPBIXDataset
  by_cases h1 : w.d.rebind_dataset_id = "" <;>
    by_cases h2 : w.d.old_rebind_dataset_id = w.d.rebind_dataset_id <;>
    by_cases h3 : w.d.report_original_dataset_id = "" <;>
    by_cases h4 : w.d.report_id = "" <;>
    simp [GetOk, ResourceData.HasChange_rebind_dataset_id, h1, h2, h3, h4]

theorem setPBIXParameters_eq (c : Client σ) (w : World σ) :
    setPBIXParameters c w =
      if w.d.parameter = [] then (none, w)
      else if w.d.dataset_id = "" then
        (some (.Errorf
          "Unable to update parameters on a PBIX file that does not contain a dataset"), w)
      else
        ((c.UpdateParametersInGroup w.remote w.d.workspace_id w.d.dataset_id
            (setPBIXParameters.request w.d.parameter)).1,
          w.issue (.UpdateParametersInGroup w.d.workspace_id w.d.dataset_id
            (setPBIXParameters.request w.d.parameter))
            (c.UpdateParametersInGroup w.remote w.d.workspace_id w.d.dataset_id
              (setPBIXParameters.request w.d.parameter)).2) := by
  unfold setPBIXParameters
  by_cases h1 : w.d.parameter = []
  · simp [h1]
  · have hlen : w.d.parameter.length > 0 := List.length_pos.mpr h1
    by_cases h2 : w.d.dataset_id = ""
    · simp [h1, hlen, h2, GetOk]
    · simp only [h1, hlen, h2, GetOk, if_true, if_false, ne_eq, not_false_eq_true,
        decide_True, Bool.not_true, Bool.false_eq_true]
      split
      · rename_i err herr
        simp [herr]
      · rename_i herr
        simp [herr, World.issue, World.setData]

theorem setPBIXDatasources_eq (c : Client σ) (w : World σ) :
    setPBIXDatasources c w =
      if w.d.datasource = [] then (none, w)
      else if w.d.dataset_id = "" then
        (some (.Errorf
          "Unable to update datasources on a PBIX file that does not contain a dataset"), w)
      else
        ((c.UpdateDatasourcesInGroup w.remote w.d.workspace_id w.d.dataset_id
            (setPBIXDatasources.request w.d.datasource)).1,
          w.issue (.UpdateDatasourcesInGroup w.d.workspace_id w.d.dataset_id
            (setPBIXDatasources.request w.d.datasource))
            (c.UpdateDatasourcesInGroup w.remote w.d.workspace_id w.d.dataset_id
              (setPBIXDatasources.request w.d.datasource)).2) := by
  unfold setPBIXDatasources
  by_cases h1 : w.d.datasource = []
  · simp [h1]
  · have hlen : w.d.datasource.length > 0 := List.length_pos.mpr h1
    by_cases h2 : w.d.dataset_id = ""
    · simp [h1, hlen, h2, GetOk]
    · simp only [h1, hlen, h2, GetOk, if_true, if_false, ne_eq, not_false_eq_true,
        decide_True, Bool.not_true, Bool.false_eq_true]
      split
      · rename_i err herr
        simp [herr]
      · rename_i herr
        simp [herr, World.issue, World.setData]

end Steps

section Ordering

variable {σ : Type}

theorem takeOverPBIXReport_eq (c : Client σ) (w : World σ) :
    takeOverPBIXReport c w =
      if w.d.dataset_id ≠ "" then
        ((c.TakeOverDatasetInGroup w.remote w.d.workspace_id w.d.dataset_id).1,
          w.issue (.TakeOverDatasetInGroup w.d.workspace_id w.d.dataset_id)
            (c.TakeOverDatasetInGroup w.remote w.d.workspace_id w.d.dataset_id).2)
      else if w.d.report_id ≠ "" then
        ((c.TakeOverReportInGroup w.remote w.d.workspace_id w.d.report_id).1,
          w.issue (.TakeOverReportInGroup w.d.workspace_id w.d.report_id)
            (c.TakeOverReportInGroup w.remote w.d.workspace_id w.d.report_id).2)
      else (none, w) := by
  unfold takeOverPBIXReport
  by_cases h1 : w.d.dataset_id = "" <;> by_cases h2 : w.d.report_id = "" <;>
    simp [GetOk, h1, h2]

theorem createImport_success (c : Client σ) (w : World σ) (h : (createImport c w).1 = none) :
    ∃ (reader : String) (resp : PostImportInGroupResponse),
      c.Open w.d.source = .ok reader ∧
      (createImport c w).2.d = { w.d with id := resp.ID } ∧
      (createImport c w).2.calls = w.calls ++
        [.PostImportInGroup w.d.workspace_id w.d.name "CreateOrOverwrite" w.d.skip_report
          reader] := by
  unfold createImport openContentReader at h ⊢
  cases hopen : c.Open w.d.source with
  | error err => simp [hopen] at h
  | ok reader =>
    simp only [hopen] at h ⊢
    cases hpost : (c.PostImportInGroup w.remote w.d.workspace_id w.d.name "CreateOrOverwrite"
        w.d.skip_report reader).1 with
    | error err => simp [hpost] at h
    | ok resp =>
      refine ⟨reader, resp, rfl, ?_, ?_⟩ <;> simp [hpost, World.issue, World.setData]

theorem readImport_calls_of_not_new (c : Client σ) (w : World σ) (timeout : Nat)
    (h : w.d.isNew = false) :
    (readImport c w timeout).2.calls =
      w.calls ++ [.WaitForImportInGroupToSucceed w.d.workspace_id w.d.id timeout] := by
  unfold readImport
  simp only []
  split
  · rfl
  · simp [ResourceData.IsNewResource, World.setData, World.issue, h]

theorem takeOverPBIXReport_world (c : Client σ) (w : World σ) (hreport : w.d.report_id ≠ "") :
    (takeOverPBIXReport c w).2 =
      { d := w.d
        remote := updatePBIX.remoteAfterTakeOver c w
        calls := w.calls ++
          [(if w.d.dataset_id ≠ "" then
              Call.TakeOverDatasetInGroup w.d.workspace_id w.d.dataset_id
            else Call.TakeOverReportInGroup w.d.workspace_id w.d.report_id)] } := by
  rw [takeOverPBIXReport_eq]
  by_cases h : w.d.dataset_id = "" <;>
    simp [h, hreport, World.issue, updatePBIX.remoteAfterTakeOver]

theorem unbindPBIXDataset_world (c : Client σ) (w : World σ)
    (htarget : w.d.rebind_dataset_id ≠ "") (hreport : w.d.report_id ≠ "")
    (horiginal : w.d.report_original_dataset_id ≠ "") :
    (unbindPBIXDataset c w).2 =
      { d := w.d
        remote := (c.RebindReportInGroup w.remote w.d.workspace_id w.d.report_id
          { DatasetID := w.d.report_original_dataset_id }).2
        calls := w.calls ++
          [Call.RebindReportInGroup w.d.workspace_id w.d.report_id
            { DatasetID := w.d.report_original_dataset_id }] } := by
  rw [unbindPBIXDataset_eq]
  simp [htarget, horiginal, hreport, World.issue]

theorem rebindPBIXDataset_world (c : Client σ) (w : World σ)
    (htarget : w.d.rebind_dataset_id ≠ "") (hreport : w.d.report_id ≠ "") :
    (rebindPBIXDataset c w).2 =
      { d := w.d
        remote := (c.RebindReportInGroup w.remote w.d.workspace_id w.d.report_id
          { DatasetID := w.d.rebind_dataset_id }).2
        calls := w.calls ++
          [Call.RebindReportInGroup w.d.workspace_id w.d.report_id
            { DatasetID := w.d.rebind_dataset_id }] } := by
  rw [rebindPBIXDataset_eq]
  simp [htarget, hreport, World.issue]

theorem createImport_success_world (c : Client σ) (w : World σ)
    (h : (createImport c w).1 = none) :
    ∃ (reader : String) (resp : PostImportInGroupResponse) (s : σ),
      c.Open w.d.source = .ok reader ∧
      c.PostImportInGroup w.remote w.d.workspace_id w.d.name "CreateOrOverwrite"
        w.d.skip_report reader = (.ok resp, s) ∧
      (createImport c w).2 =
        { d := { w.d with id := resp.ID }
          remote := s
          calls := w.calls ++
            [Call.PostImportInGroup w.d.workspace_id w.d.name "CreateOrOverwrite"
              w.d.skip_report reader] } := by
  cases hopen : c.Open w.d.source with
  | error err => simp [createImport, openContentReader, hopen] at h
  | ok reader =>
    cases hpost : c.PostImportInGroup w.remote w.d.workspace_id w.d.name "CreateOrOverwrite"
        w.d.skip_report reader with
    | mk outcome s =>
      cases outcome with
      | error err => simp [createImport, openContentReader, hopen, hpost] at h
      | ok resp =>
        refine ⟨reader, resp, s, rfl, hpost, ?_⟩
        rw [createImport_ok c w reader resp s hopen hpost]

theorem readImport_success_world (c : Client σ) (w : World σ) (timeout : Nat)
    (hnew : w.d.isNew = false) (h : (readImport c w timeout).1 = none) :
    ∃ (im : GetImportInGroupResponse) (s : σ),
      c.WaitForImportInGroupToSucceed w.remote w.d.workspace_id w.d.id timeout = (.ok im, s) ∧
      (readImport c w timeout).2 =
        { d := { w.d with name := im.Name }
          remote := s
          calls := w.calls ++
            [Call.WaitForImportInGroupToSucceed w.d.workspace_id w.d.id timeout] } := by
  cases hwait : c.WaitForImportInGroupToSucceed w.remote w.d.workspace_id w.d.id timeout with
  | mk outcome s =>
    cases outcome with
    | error err => simp [readImport, hwait] at h
    | ok im =>
      refine ⟨im, s, rfl, ?_⟩
      simp [readImport, hwait, ResourceData.IsNewResource, hnew, World.issue, World.setData]

theorem setPBIXParameters_success_world (c : Client σ) (w : World σ)
    (h : (setPBIXParameters c w).1 = none) :
    (setPBIXParameters c w).2 =
      { d := w.d
        remote :=
          if w.d.parameter = [] then w.remote
          else (c.UpdateParametersInGroup w.remote w.d.workspace_id w.d.dataset_id
            (setPBIXParameters.request w.d.parameter)).2
        calls := w.calls ++
          (if w.d.parameter = [] then []
            else [Call.UpdateParametersInGroup w.d.workspace_id w.d.dataset_id
              (setPBIXParameters.request w.d.parameter)]) } := by
  rw [setPBIXParameters_eq] at h ⊢
  by_cases hp : w.d.parameter = []
  · simp [hp]
  · by_cases hds : w.d.dataset_id = ""
    · simp [hp, hds] at h
    · simp [hp, hds, World.issue]

theorem setPBIXDatasources_success_world (c : Client σ) (w : World σ)
    (h : (setPBIXDatasources c w).1 = none) :
    (setPBIXDatasources c w).2 =
      { d := w.d
        remote :=
          if w.d.datasource = [] then w.remote
          else (c.UpdateDatasourcesInGroup w.remote w.d.workspace_id w.d.dataset_id
            (setPBIXDatasources.request w.d.datasource)).2
        calls := w.calls ++
          (if w.d.datasource = [] then []
            else [Call.UpdateDatasourcesInGroup w.d.workspace_id w.d.dataset_id
              (setPBIXDatasources.request w.d.datasource)]) } := by
  rw [setPBIXDatasources_eq] at h ⊢
  by_cases hp : w.d.datasource = []
  · simp [hp]
  · by_cases hds : w.d.dataset_id = ""
    · simp [hp, hds] at h
    · simp [hp, hds, World.issue]

/-- C3 (counterexample). The example update with a new source path at which there is
no file. The take-over and the rebind of `R1` to its original `D1` are issued and
both succeed; then opening the source fails. No remote call has failed, yet there is
no submit and no rebind of `R1` to the target `D2`: the update returns the error and
leaves `R1` on `D1`. -/
theorem updatePBIX_source_unopenable :
    specMissingSource.d.old_source ≠ specMissingSource.d.source ∧
    specMissingSource.d.rebind_dataset_id = "D2" ∧
    specMissingSource.d.report_id = "R1" ∧
    specMissingSource.d.report_original_dataset_id = "D1" ∧
    (specScenario.client.TakeOverDatasetInGroup [("R1", "D2")] "W" "D1").1 = none ∧
    (specScenario.client.RebindReportInGroup [("R1", "D2")] "W" "R1" { DatasetID := "D1" }).1 =
      none ∧
    updatePBIX specScenario.client specMissingSource =
      (some (.Errorf "open: no such file or directory"),
        { d := specMissingSource.d
          remote := [("R1", "D1"), ("R1", "D2")]
          calls := [Call.TakeOverDatasetInGroup "W" "D1",
            Call.RebindReportInGroup "W" "R1" { DatasetID := "D1" }] }) := by
  decide

/-- C3 (amended). An update (data not marked new) in which source, source_hash or
datasource changed, with a rebind target declared, a report and a captured original
dataset, and which returned without an error (so every remote call succeeded, the
new source could be opened, and nothing was declared on an artifact without a
dataset). Then the source was opened, the package was submitted on the remote state
that the take-over followed by the rebind of the report to the original dataset had
left, the wait was for the id that submit returned, and the update ends with the
new id and name, with the remote state that the final rebind of the report to the
declared target left, and with exactly these calls in order: take-over, rebind to
the original, submit, wait, the pushes of the declared parameters and datasource
rules if any, rebind to the target. Against a remote whose rebind sets the report's
current dataset, the report is on the original dataset when the package is
submitted and on the target when the update ends. -/
theorem updatePBIX_unbinds_before_reimport (c : Client σ) (w : World σ)
    (hupdate : w.d.isNew = false)
    (hchange : w.d.old_source ≠ w.d.source ∨ w.d.old_source_hash ≠ w.d.source_hash ∨
      w.d.old_datasource ≠ w.d.datasource)
    (htarget : w.d.rebind_dataset_id ≠ "")
    (hreport : w.d.report_id ≠ "")
    (horiginal : w.d.report_original_dataset_id ≠ "")
    (hok : (updatePBIX c w).1 = none) :
    ∃ (reader : String) (resp : PostImportInGroupResponse) (s3 : σ)
      (im : GetImportInGroupResponse) (s4 : σ),
      c.Open w.d.source = .ok reader ∧
      c.PostImportInGroup (updatePBIX.remoteAfterUnbind c w) w.d.workspace_id w.d.name
        "CreateOrOverwrite" w.d.skip_report reader = (.ok resp, s3) ∧
      c.WaitForImportInGroupToSucceed s3 w.d.workspace_id resp.ID w.d.timeoutUpdate =
        (.ok im, s4) ∧
      updatePBIX c w =
        (none,
          { d := { w.d with id := resp.ID, name := im.Name }
            remote := (c.RebindReportInGroup (updatePBIX.remoteAfterPushes c w s4)
              w.d.workspace_id w.d.report_id { DatasetID := w.d.rebind_dataset_id }).2
            calls := w.calls ++
              [(if w.d.dataset_id ≠ "" then
                  Call.TakeOverDatasetInGroup w.d.workspace_id w.d.dataset_id
                else Call.TakeOverReportInGroup w.d.workspace_id w.d.report_id),
                Call.RebindReportInGroup w.d.workspace_id w.d.report_id
                  { DatasetID := w.d.report_original_dataset_id },
                Call.PostImportInGroup w.d.workspace_id w.d.name "CreateOrOverwrite"
                  w.d.skip_report reader,
                Call.WaitForImportInGroupToSucceed w.d.workspace_id resp.ID
                  w.d.timeoutUpdate] ++
              (if w.d.parameter = [] then []
                else [Call.UpdateParametersInGroup w.d.workspace_id w.d.dataset_id
                  (setPBIXParameters.request w.d.parameter)]) ++
              (if w.d.datasource = [] then []
                else [Call.UpdateDatasourcesInGroup w.d.workspace_id w.d.dataset_id
                  (setPBIXDatasources.request w.d.datasource)]) ++
              [Call.RebindReportInGroup w.d.workspace_id w.d.report_id
                { DatasetID := w.d.rebind_dataset_id }] }) ∧
      (∀ binding : σ → String → String,
        (∀ (s : σ) (groupID reportID : String) (request : RebindReportInGroupRequest),
          binding (c.RebindReportInGroup s groupID reportID request).2 reportID =
            request.DatasetID) →
        binding (updatePBIX.remoteAfterUnbind c w) w.d.report_id =
          w.d.report_original_dataset_id ∧
        binding (updatePBIX c w).2.remote w.d.report_id = w.d.rebind_dataset_id) := by
  have hcond : (w.d.HasChange_source || w.d.HasChange_source_hash ||
      w.d.HasChange_datasource) = true := by
    simpa [ResourceData.HasChange_source, ResourceData.HasChange_source_hash,
      ResourceData.HasChange_datasource, or_assoc] using hchange
  have hupd : updatePBIX c w = updatePBIX c w := rfl
  conv at hupd => rhs; unfold updatePBIX
  have hrun := hok
  rw [hupd] at hrun
  -- take over
  obtain ⟨-, q1⟩ := andThen_none _ _ hrun
  rw [q1] at hupd hrun
  clear q1
  have hw1 := takeOverPBIXReport_world c w hreport
  generalize (takeOverPBIXReport c w).2 = w1 at hupd hrun hw1
  have d1 : w1.d = w.d := by rw [hw1]
  have hc1 : (w1.d.HasChange_source || w1.d.HasChange_source_hash ||
      w1.d.HasChange_datasource) = true := by rw [d1]; exact hcond
  simp only [hc1, if_true] at hupd hrun
  -- unbind
  obtain ⟨-, q2⟩ := andThen_none _ _ hrun
  rw [q2] at hupd hrun
  clear q2
  have hw2 := unbindPBIXDataset_world c w1 (by rw [d1]; exact htarget)
    (by rw [d1]; exact hreport) (by rw [d1]; exact horiginal)
  generalize (unbindPBIXDataset c w1).2 = w2 at hupd hrun hw2
  have d2 : w2.d = w.d := by rw [hw2]; exact d1
  -- submit
  obtain ⟨e3, q3⟩ := andThen_none _ _ hrun
  rw [q3] at hupd hrun
  clear q3
  obtain ⟨reader, resp, s3, hopen, hpost, hw3⟩ := createImport_success_world c w2 e3
  generalize (createImport c w2).2 = w3 at hupd hrun hw3
  have n3 : w3.d.isNew = false := by rw [hw3, d2]; exact hupdate
  -- wait
  obtain ⟨e4, q4⟩ := andThen_none _ _ hrun
  rw [q4] at hupd hrun
  clear q4
  obtain ⟨im, s4, hwait, hw4⟩ := readImport_success_world c w3 _ n3 e4
  generalize (readImport c w3 (w3.d.Timeout .TimeoutUpdate)).2 = w4 at hupd hrun hw4
  -- pushes
  obtain ⟨e5, q5⟩ := andThen_none _ _ hrun
  rw [q5] at hupd hrun
  clear q5
  have hw5 := setPBIXParameters_success_world c w4 e5
  generalize (setPBIXParameters c w4).2 = w5 at hupd hrun hw5
  obtain ⟨e6, q6⟩ := andThen_none _ _ hrun
  rw [q6] at hupd hrun
  clear q6
  have hw6 := setPBIXDatasources_success_world c w5 e6
  generalize (setPBIXDatasources c w5).2 = w6 at hupd hrun hw6
  have d6 : { w6.d with id := w.d.id, name := w.d.name } = w.d := by
    rw [hw6, hw5, hw4, hw3, d2]
  -- rebind
  obtain ⟨-, q7⟩ := andThen_none _ _ hrun
  rw [q7] at hupd
  clear q7
  have t6 : w6.d.rebind_dataset_id = w.d.rebind_dataset_id := by
    have h := congrArg ResourceData.rebind_dataset_id d6
    exact h
  have r6 : w6.d.report_id = w.d.report_id := by
    have h := congrArg ResourceData.report_id d6
    exact h
  have hw7 := rebindPBIXDataset_world c w6 (by rw [t6]; exact htarget)
    (by rw [r6]; exact hreport)
  rw [hw7] at hupd
  subst hw6 hw5 hw4 hw3 hw2 hw1
  refine ⟨reader, resp, s3, im, s4, hopen, hpost, hwait, ?_, ?_⟩
  · rw [hupd]
    simp [updatePBIX.remoteAfterPushes, List.append_assoc, ResourceData.Timeout]
  · intro binding hbinding
    refine ⟨hbinding _ _ _ _, ?_⟩
    rw [hupd]
    exact hbinding _ _ _ _

end Ordering

/-- C3 (witness). The example scenario: report `R1`, original dataset `D1`, declared
target `D2`, `R1` currently rebound to `D2`, source changed from `fileA` to `fileB`.
The update succeeds; `fileB` is submitted on a remote where the latest rebind of
`R1` is the one to `D1`; the calls are the take-over of `D1`, unbind(R1, D1),
submit, wait for `I1`, rebind(R1, D2); and the remote ends with `R1` on `D2`. -/
theorem updatePBIX_unbinds_before_reimport_witness :
    (updatePBIX specScenario.client specUpdate).1 = none ∧
    updatePBIX.remoteAfterUnbind specScenario.client specUpdate =
      [("R1", "D1"), ("R1", "D2")] ∧
    ∃ (reader : String) (resp : PostImportInGroupResponse) (s3 : List (String × String))
      (im : GetImportInGroupResponse) (s4 : List (String × String)),
      specScenario.client.Open "fileB" = .ok reader ∧
      specScenario.client.PostImportInGroup [("R1", "D1"), ("R1", "D2")] "W" "sales"
        "CreateOrOverwrite" false reader = (.ok resp, s3) ∧
      specScenario.client.WaitForImportInGroupToSucceed s3 "W" resp.ID 300 = (.ok im, s4) ∧
      updatePBIX specScenario.client specUpdate =
        (none,
          { d := { specChangeSource with id := resp.ID, name := im.Name }
            remote := ("R1", "D2") :: s4
            calls :=
              [Call.TakeOverDatasetInGroup "W" "D1",
                Call.RebindReportInGroup "W" "R1" { DatasetID := "D1" },
                Call.PostImportInGroup "W" "sales" "CreateOrOverwrite" false reader,
                Call.WaitForImportInGroupToSucceed "W" resp.ID 300,
                Call.RebindReportInGroup "W" "R1" { DatasetID := "D2" }] }) :=
  ⟨by decide, by decide,
    let ⟨reader, resp, s3, im, s4, hopen, hpost, hwait, hrun, _⟩ :=
      updatePBIX_unbinds_before_reimport specScenario.client specUpdate rfl
        (Or.inl (by decide)) (by decide) (by decide) (by decide) (by decide)
    ⟨reader, resp, s3, im, s4, hopen, hpost, hwait, hrun⟩⟩

/-! ## C4 and C5: unbind and rebind -/

section Binding

variable {σ : Type}

/-- C4. `unbindPBIXDataset` issues one call, the rebind of `report_id` to
`report_original_dataset_id`, exactly when (a rebind target is declared or the
declared target changed) and a captured original dataset exists and a report
exists; otherwise it issues nothing, changes nothing and returns success. In
particular it issues the call when the update removes a target declared before. -/
theorem unbindPBIXDataset_guard (c : Client σ) (w : World σ) :
    ((unbindPBIXDataset c w).2.calls = w.calls ++
        [Call.RebindReportInGroup w.d.workspace_id w.d.report_id
          { DatasetID := w.d.report_original_dataset_id }] ↔
      ((w.d.rebind_dataset_id ≠ "" ∨ w.d.old_rebind_dataset_id ≠ w.d.rebind_dataset_id) ∧
        w.d.report_original_dataset_id ≠ "" ∧ w.d.report_id ≠ "")) ∧
    (¬ ((w.d.rebind_dataset_id ≠ "" ∨ w.d.old_rebind_dataset_id ≠ w.d.rebind_dataset_id) ∧
        w.d.report_original_dataset_id ≠ "" ∧ w.d.report_id ≠ "") →
      unbindPBIXDataset c w = (none, w)) ∧
    (w.d.rebind_dataset_id = "" → w.d.old_rebind_dataset_id ≠ "" →
      w.d.report_original_dataset_id ≠ "" → w.d.report_id ≠ "" →
      (unbindPBIXDataset c w).2.calls = w.calls ++
        [Call.RebindReportInGroup w.d.workspace_id w.d.report_id
          { DatasetID := w.d.report_original_dataset_id }]) := by
  have hissue : ((w.d.rebind_dataset_id ≠ "" ∨
        w.d.old_rebind_dataset_id ≠ w.d.rebind_dataset_id) ∧
        w.d.report_original_dataset_id ≠ "" ∧ w.d.report_id ≠ "") →
      (unbindPBIXDataset c w).2.calls = w.calls ++
        [Call.RebindReportInGroup w.d.workspace_id w.d.report_id
          { DatasetID := w.d.report_original_dataset_id }] := by
    intro h
    rw [unbindPBIXDataset_eq, if_pos h]
    rfl
  have hskip : ¬ ((w.d.rebind_dataset_id ≠ "" ∨
        w.d.old_rebind_dataset_id ≠ w.d.rebind_dataset_id) ∧
        w.d.report_original_dataset_id ≠ "" ∧ w.d.report_id ≠ "") →
      unbindPBIXDataset c w = (none, w) := by
    intro h
    rw [unbindPBIXDataset_eq, if_neg h]
  refine ⟨⟨?_, hissue⟩, hskip, ?_⟩
  · intro hcalls
    by_contra h
    rw [hskip h] at hcalls
    simp at hcalls
  · intro h1 h2 h3 h4
    exact hissue ⟨Or.inr (by rw [h1]; exact h2), h3, h4⟩

/-- C4 (witness). The update removes the declared target `D2`; report `R1` and the
captured original `D1` exist: the unbind to `D1` is issued. -/
theorem unbindPBIXDataset_guard_witness :
    specRemoveRebind.d.rebind_dataset_id = "" ∧
    specRemoveRebind.d.old_rebind_dataset_id ≠ "" ∧
    (unbindPBIXDataset specScenario.client specRemoveRebind).2.calls =
      [Call.RebindReportInGroup "W" "R1" { DatasetID := "D1" }] :=
  ⟨rfl, by decide,
    (unbindPBIXDataset_guard specScenario.client specRemoveRebind).2.2 rfl (by decide)
      (by decide) (by decide)⟩

/-- C5. `rebindPBIXDataset` issues one call, the rebind of `report_id` to the declared
`rebind_dataset_id`, exactly when a target is declared and a report exists, whatever
the remote state is (so also when the report already points at the target);
otherwise it issues nothing, changes nothing and returns success. Against a remote
whose rebind sets the report's current dataset, rebinding twice leaves the bindings
that rebinding once leaves. -/
theorem rebindPBIXDataset_unconditional (c : Client σ) (w : World σ)
    (c1 : Client (String → String)) (w1 : World (String → String)) :
    ((rebindPBIXDataset c w).2.calls = w.calls ++
        [Call.RebindReportInGroup w.d.workspace_id w.d.report_id
          { DatasetID := w.d.rebind_dataset_id }] ↔
      (w.d.rebind_dataset_id ≠ "" ∧ w.d.report_id ≠ "")) ∧
    (¬ (w.d.rebind_dataset_id ≠ "" ∧ w.d.report_id ≠ "") →
      rebindPBIXDataset c w = (none, w)) ∧
    (rebindPBIXDataset c1.rebindSets (rebindPBIXDataset c1.rebindSets w1).2).2.remote =
      (rebindPBIXDataset c1.rebindSets w1).2.remote ∧
    (w1.d.rebind_dataset_id ≠ "" → w1.d.report_id ≠ "" →
      (rebindPBIXDataset c1.rebindSets w1).2.remote w1.d.report_id =
        w1.d.rebind_dataset_id) := by
  have hissue : (w.d.rebind_dataset_id ≠ "" ∧ w.d.report_id ≠ "") →
      (rebindPBIXDataset c w).2.calls = w.calls ++
        [Call.RebindReportInGroup w.d.workspace_id w.d.report_id
          { DatasetID := w.d.rebind_dataset_id }] := by
    intro h
    rw [rebindPBIXDataset_eq, if_pos h]
    rfl
  have hskip : ¬ (w.d.rebind_dataset_id ≠ "" ∧ w.d.report_id ≠ "") →
      rebindPBIXDataset c w = (none, w) := by
    intro h
    rw [rebindPBIXDataset_eq, if_neg h]
  refine ⟨⟨?_, hissue⟩, hskip, ?_, ?_⟩
  · intro hcalls
    by_contra h
    rw [hskip h] at hcalls
    simp at hcalls
  · by_cases h : w1.d.rebind_dataset_id ≠ "" ∧ w1.d.report_id ≠ ""
    · have hd := rebindPBIXDataset_d c1.rebindSets w1
      rw [rebindPBIXDataset_eq c1.rebindSets (rebindPBIXDataset c1.rebindSets w1).2]
      rw [hd, if_pos h]
      rw [rebindPBIXDataset_eq, if_pos h]
      funext report
      by_cases hr : report = w1.d.report_id <;> simp [Client.rebindSets, World.issue, hr]
    · rw [rebindPBIXDataset_eq c1.rebindSets w1, if_neg h]
      rw [rebindPBIXDataset_eq, if_neg h]
  · intro h1 h2
    rw [rebindPBIXDataset_eq, if_pos ⟨h1, h2⟩]
    simp [Client.rebindSets, World.issue]

/-- C5 (witness). `R1` already points at the declared target `D2`; one rebind of `R1`
to `D2` is issued all the same. -/
theorem rebindPBIXDataset_unconditional_witness :
    specScenario.client.GetReportInGroup specAlreadyRebound.remote "W" "R1" =
      (.ok { DatasetID := "D2" }, specAlreadyRebound.remote) ∧
    (rebindPBIXDataset specScenario.client specAlreadyRebound).2.calls =
      [Call.RebindReportInGroup "W" "R1" { DatasetID := "D2" }] ∧
    specBound.remote "R1" = "D1" ∧
    (rebindPBIXDataset specScenario.bindingClient.rebindSets specBound).2.remote "R1" = "D2" :=
  ⟨rfl,
    (rebindPBIXDataset_unconditional specScenario.client specAlreadyRebound
      specScenario.bindingClient specBound).1.mpr ⟨by decide, by decide⟩,
    rfl,
    (rebindPBIXDataset_unconditional specScenario.client specAlreadyRebound
      specScenario.bindingClient specBound).2.2.2 (by decide) (by decide)⟩

end Binding

/-! ## C6: parameter pull -/

section ParameterPull

variable {σ : Type}

theorem readPBIXParameters.pull_name (api : List GetParametersInGroupResponseItem)
    (p : Parameter) : (readPBIXParameters.pull api p).name = p.name := by
  induction api generalizing p with
  | nil => rfl
  | cons a rest ih =>
    simp only [readPBIXParameters.pull, List.foldl_cons] at ih ⊢
    rw [ih]
    split <;> rfl

theorem readPBIXParameters.pull_absent (api : List GetParametersInGroupResponseItem)
    (p : Parameter) (h : ∀ a ∈ api, a.Name ≠ p.name) : readPBIXParameters.pull api p = p := by
  induction api generalizing p with
  | nil => rfl
  | cons a rest ih =>
    have ha : ¬ p.name = a.Name := fun e => h a (List.mem_cons_self a rest) e.symm
    simp only [readPBIXParameters.pull, List.foldl_cons, ha, if_false] at ih ⊢
    exact ih p (fun b hb => h b (List.mem_cons_of_mem a hb))

theorem readPBIXParameters.pull_present (api : List GetParametersInGroupResponseItem)
    (p : Parameter) (hunique : (api.map (fun a => a.Name)).Nodup)
    (a : GetParametersInGroupResponseItem) (ha : a ∈ api) (hname : a.Name = p.name) :
    (readPBIXParameters.pull api p).value = a.CurrentValue := by
  induction api generalizing p with
  | nil => simp at ha
  | cons b rest ih =>
    rw [List.map_cons, List.nodup_cons] at hunique
    obtain ⟨hb, hrest⟩ := hunique
    have hstep : readPBIXParameters.pull (b :: rest) p =
        readPBIXParameters.pull rest
          (if p.name = b.Name then { p with value := b.CurrentValue } else p) := rfl
    rw [hstep]
    rcases List.mem_cons.mp ha with rfl | hmem
    · rw [if_pos hname.symm, readPBIXParameters.pull_absent]
      intro b hbrest e
      exact hb (List.mem_map.mpr ⟨b, hbrest, e.trans hname.symm⟩)
    · have hne : ¬ p.name = b.Name := by
        intro e
        exact hb (List.mem_map.mpr ⟨a, hmem, hname.trans e⟩)
      rw [if_neg hne]
      exact ih p hrest hmem hname

/-- C6. `readPBIXParameters` on an artifact without a dataset returns the tracked set
unchanged and issues no call. With a dataset and a remote parameter list with unique
names, it issues the one list call and the tracked parameters come back position by
position with the same names (none added, none dropped); a parameter whose name
occurs remotely carries the remote current value, a parameter whose name does not
occur remotely keeps its value. -/
theorem readPBIXParameters_pull (c : Client σ) (w : World σ) :
    (w.d.dataset_id = "" → readPBIXParameters c w = (none, w)) ∧
    (∀ (api : GetParametersInGroupResponse) (s1 : σ),
      w.d.dataset_id ≠ "" →
      c.GetParametersInGroup w.remote w.d.workspace_id w.d.dataset_id = (.ok api, s1) →
      (api.Value.map (fun a => a.Name)).Nodup →
      (readPBIXParameters c w).1 = none ∧
      (readPBIXParameters c w).2.calls =
        w.calls ++ [Call.GetParametersInGroup w.d.workspace_id w.d.dataset_id] ∧
      (readPBIXParameters c w).2.d.parameter.map (fun p => p.name) =
        w.d.parameter.map (fun p => p.name) ∧
      List.Forall₂
        (fun tracked pulled =>
          pulled.name = tracked.name ∧
          (∀ a ∈ api.Value, a.Name = tracked.name → pulled.value = a.CurrentValue) ∧
          ((∀ a ∈ api.Value, a.Name ≠ tracked.name) → pulled.value = tracked.value))
        w.d.parameter (readPBIXParameters c w).2.d.parameter) := by
  constructor
  · intro h
    simp [readPBIXParameters, GetOk, h]
  · intro api s1 hds hget hunique
    have hrun : readPBIXParameters c w =
        (none,
          { d := { w.d with parameter := w.d.parameter.map (readPBIXParameters.pull api.Value) }
            remote := s1
            calls := w.calls ++ [Call.GetParametersInGroup w.d.workspace_id w.d.dataset_id] }) := by
      simp [readPBIXParameters, GetOk, hds, hget, World.issue, World.setData]
    rw [hrun]
    refine ⟨rfl, rfl, ?_, ?_⟩
    · simp [List.map_map, Function.comp_def, readPBIXParameters.pull_name]
    · show List.Forall₂ _ w.d.parameter (w.d.parameter.map (readPBIXParameters.pull api.Value))
      rw [List.forall₂_map_right_iff, List.forall₂_same]
      intro p _
      refine ⟨readPBIXParameters.pull_name _ p, ?_, ?_⟩
      · intro a ha hname
        exact readPBIXParameters.pull_present api.Value p hunique a ha hname
      · intro habsent
        rw [readPBIXParameters.pull_absent api.Value p habsent]

/-- C6 (witness). Tracked `{A, B}`, the remote holds `A` (and an untracked `C`) but
not `B`: the pull returns `A` with the remote value and `B` with its old value, and
no `C`. -/
theorem readPBIXParameters_pull_witness :
    pullAB.d.dataset_id ≠ "" ∧
    (remoteOnlyA.parameters.map (fun a => a.Name)).Nodup ∧
    (readPBIXParameters remoteOnlyA.client pullAB).2.d.parameter.map (fun p => p.name) =
      ["A", "B"] ∧
    (readPBIXParameters remoteOnlyA.client pullAB).2.d.parameter =
      [{ name := "A", value := "10" }, { name := "B", value := "2" }] :=
  ⟨by decide, by decide,
    ((readPBIXParameters_pull remoteOnlyA.client pullAB).2 { Value := remoteOnlyA.parameters }
      [] (by decide) rfl (by decide)).2.2.1,
    by decide⟩

end ParameterPull

/-! ## C7: push of declared parameters and datasource rules -/

section Push

variable {σ : Type}

theorem setPBIXParameters_request_eq (parameterList : List Parameter) :
    setPBIXParameters.request parameterList =
      { UpdateDetails := parameterList.map
          (fun p => { Name := p.name, NewValue := p.value }) } := by
  have h : ∀ (l : List Parameter) (acc : UpdateParametersInGroupRequest),
      l.foldl
        (fun request parameterObj =>
          { request with
            UpdateDetails := request.UpdateDetails ++
              [{ Name := parameterObj.name, NewValue := parameterObj.value }] }) acc =
        { UpdateDetails := acc.UpdateDetails ++
            l.map (fun p => { Name := p.name, NewValue := p.value }) } := by
    intro l
    induction l with
    | nil => intro acc; simp
    | cons p rest ih => intro acc; simp [ih]
  simpa [setPBIXParameters.request] using h parameterList { UpdateDetails := [] }

theorem setPBIXDatasources_request_eq (datasourceList : List Datasource) :
    setPBIXDatasources.request datasourceList =
      { UpdateDetails := datasourceList.map setPBIXDatasources.item } := by
  have h : ∀ (l : List Datasource) (acc : UpdateDatasourcesInGroupRequest),
      l.foldl
        (fun request datasourceObj =>
          { request with
            UpdateDetails := request.UpdateDetails ++ [setPBIXDatasources.item datasourceObj] })
        acc =
        { UpdateDetails := acc.UpdateDetails ++ l.map setPBIXDatasources.item } := by
    intro l
    induction l with
    | nil => intro acc; simp
    | cons p rest ih => intro acc; simp [ih]
  simpa [setPBIXDatasources.request] using h datasourceList { UpdateDetails := [] }

/-- C7. `setPBIXParameters` returns its invalid-state error without issuing a call
exactly when parameters are declared and there is no dataset; with parameters
declared and a dataset it issues exactly one `UpdateParametersInGroup` call whose
items are the declared pairs, one per parameter, in order, and returns what the call
returned; with nothing declared it issues no call and succeeds. `setPBIXDatasources`
does the same with the datasource rules and `UpdateDatasourcesInGroup`. -/
theorem setPBIX_push (c : Client σ) (w : World σ) :
    ((((setPBIXParameters c w).1 = some (.Errorf
          "Unable to update parameters on a PBIX file that does not contain a dataset") ∧
        (setPBIXParameters c w).2.calls = w.calls) ↔
      (w.d.parameter ≠ [] ∧ w.d.dataset_id = "")) ∧
    (w.d.parameter ≠ [] → w.d.dataset_id ≠ "" →
      (setPBIXParameters c w).2.calls = w.calls ++
        [Call.UpdateParametersInGroup w.d.workspace_id w.d.dataset_id
          { UpdateDetails := w.d.parameter.map
              (fun p => { Name := p.name, NewValue := p.value }) }] ∧
      (setPBIXParameters c w).1 =
        (c.UpdateParametersInGroup w.remote w.d.workspace_id w.d.dataset_id
          { UpdateDetails := w.d.parameter.map
              (fun p => { Name := p.name, NewValue := p.value }) }).1) ∧
    (w.d.parameter = [] → setPBIXParameters c w = (none, w))) ∧
    ((((setPBIXDatasources c w).1 = some (.Errorf
          "Unable to update datasources on a PBIX file that does not contain a dataset") ∧
        (setPBIXDatasources c w).2.calls = w.calls) ↔
      (w.d.datasource ≠ [] ∧ w.d.dataset_id = "")) ∧
    (w.d.datasource ≠ [] → w.d.dataset_id ≠ "" →
      (setPBIXDatasources c w).2.calls = w.calls ++
        [Call.UpdateDatasourcesInGroup w.d.workspace_id w.d.dataset_id
          { UpdateDetails := w.d.datasource.map setPBIXDatasources.item }] ∧
      (setPBIXDatasources c w).1 =
        (c.UpdateDatasourcesInGroup w.remote w.d.workspace_id w.d.dataset_id
          { UpdateDetails := w.d.datasource.map setPBIXDatasources.item }).1) ∧
    (w.d.datasource = [] → setPBIXDatasources c w = (none, w))) := by
  refine ⟨⟨?_, ?_, ?_⟩, ⟨?_, ?_, ?_⟩⟩
  · rw [setPBIXParameters_eq]
    by_cases h1 : w.d.parameter = []
    · simp [h1]
    · by_cases h2 : w.d.dataset_id = ""
      · simp [h1, h2]
      · simp [h1, h2, World.issue]
  · intro h1 h2
    rw [setPBIXParameters_eq, if_neg h1, if_neg h2, setPBIXParameters_request_eq]
    exact ⟨rfl, rfl⟩
  · intro h1
    rw [setPBIXParameters_eq, if_pos h1]
  · rw [setPBIXDatasources_eq]
    by_cases h1 : w.d.datasource = []
    · simp [h1]
    · by_cases h2 : w.d.dataset_id = ""
      · simp [h1, h2]
      · simp [h1, h2, World.issue]
  · intro h1 h2
    rw [setPBIXDatasources_eq, if_neg h1, if_neg h2, setPBIXDatasources_request_eq]
    exact ⟨rfl, rfl⟩
  · intro h1
    rw [setPBIXDatasources_eq, if_pos h1]

/-- C7 (witness). Declaring `A = 1` and `B = 2` on an artifact with dataset `D1` issues
one update call naming exactly `A` and `B`; on an artifact without a dataset it
issues nothing and fails. -/
theorem setPBIX_push_witness :
    pushAB.d.parameter ≠ [] ∧ pushAB.d.dataset_id ≠ "" ∧
    (setPBIXParameters specScenario.client pushAB).2.calls =
      [Call.UpdateParametersInGroup "W" "D1"
        { UpdateDetails := [{ Name := "A", NewValue := "1" }, { Name := "B", NewValue := "2" }] }] ∧
    ((setPBIXParameters specScenario.client pushNoDataset).1 = some (.Errorf
        "Unable to update parameters on a PBIX file that does not contain a dataset") ∧
      (setPBIXParameters specScenario.client pushNoDataset).2.calls = []) :=
  ⟨by decide, by decide,
    ((setPBIX_push specScenario.client pushAB).1.2.1 (by decide) (by decide)).1,
    (setPBIX_push specScenario.client pushNoDataset).1.1.mpr ⟨by decide, by decide⟩⟩

end Push

/-! ## C8: import result capture -/

section Capture

variable {σ : Type}

/-- C8 (counterexample). The wait succeeds and the import produced report `R1` and
dataset `D1`, but the resource is not new: `report_id` and `dataset_id` stay unset. -/
theorem readImport_not_new_keeps_unset :
    (readImport specScenario.client adoptedArtifact 300).1 = none ∧
    specScenario.im.Reports = [{ ID := "R1" }] ∧
    specScenario.im.Datasets = [{ ID := "D1" }] ∧
    (readImport specScenario.client adoptedArtifact 300).2.d.report_id = "" ∧
    (readImport specScenario.client adoptedArtifact 300).2.d.dataset_id = "" := by
  decide

/-- C8 (amended). Let the import wait succeed with import `im`.
On a resource that is not new, `readImport` records the name only: `report_id`,
`dataset_id` and `report_original_dataset_id` stay as they were and no get-report
call is made.
On a new resource: if `im` has no report, `report_id` and
`report_original_dataset_id` stay as they were, no get-report call is made, and
`dataset_id` becomes the first dataset id when there is one; if `im` has a report,
`report_id` becomes the first report id and one get-report call for it is made, and
when that call succeeds `report_original_dataset_id` becomes the dataset it returned
and `dataset_id` becomes the first dataset id when there is one (and stays as it
was when there is none). -/
theorem readImport_capture (c : Client σ) (w : World σ) (timeout : Nat)
    (im : GetImportInGroupResponse) (s2 : σ)
    (hwait : c.WaitForImportInGroupToSucceed w.remote w.d.workspace_id w.d.id timeout =
      (.ok im, s2)) :
    (w.d.isNew = false →
      readImport c w timeout =
        (none,
          { d := { w.d with name := im.Name }
            remote := s2
            calls := w.calls ++
              [Call.WaitForImportInGroupToSucceed w.d.workspace_id w.d.id timeout] })) ∧
    (w.d.isNew = true → im.Reports = [] →
      readImport c w timeout =
        (none,
          { d := { w.d with
                name := im.Name
                dataset_id := (im.Datasets.head?.map (fun item => item.ID)).getD w.d.dataset_id }
            remote := s2
            calls := w.calls ++
              [Call.WaitForImportInGroupToSucceed w.d.workspace_id w.d.id timeout] })) ∧
    (∀ (report0 : ImportItem) (reports : List ImportItem),
      w.d.isNew = true → im.Reports = report0 :: reports →
      (readImport c w timeout).2.d.report_id = report0.ID ∧
      (readImport c w timeout).2.calls = w.calls ++
        [Call.WaitForImportInGroupToSucceed w.d.workspace_id w.d.id timeout,
          Call.GetReportInGroup w.d.workspace_id report0.ID] ∧
      (∀ (report : GetReportInGroupResponse) (s3 : σ),
        c.GetReportInGroup s2 w.d.workspace_id report0.ID = (.ok report, s3) →
        (readImport c w timeout).1 = none ∧
        (readImport c w timeout).2.d.report_original_dataset_id = report.DatasetID ∧
        (readImport c w timeout).2.d.dataset_id =
          (im.Datasets.head?.map (fun item => item.ID)).getD w.d.dataset_id)) := by
  refine ⟨?_, ?_, ?_⟩
  · intro hnew
    simp [readImport, hwait, ResourceData.IsNewResource, hnew, World.issue, World.setData]
  · intro hnew hreports
    cases hds : im.Datasets <;>
      simp [readImport, hwait, ResourceData.IsNewResource, hnew, hreports, hds, World.issue,
        World.setData, readImport.captureReport, readImport.captureDataset, andThen]
  · intro report0 reports hnew hreports
    refine ⟨?_, ?_, ?_⟩
    · cases hget : (c.GetReportInGroup s2 w.d.workspace_id report0.ID).1 <;>
        cases hds : im.Datasets <;>
        simp [readImport, hwait, ResourceData.IsNewResource, hnew, hreports, hds, hget,
          World.issue, World.setData, readImport.captureReport, readImport.captureDataset,
          andThen]
    · cases hget : (c.GetReportInGroup s2 w.d.workspace_id report0.ID).1 <;>
        cases hds : im.Datasets <;>
        simp [readImport, hwait, ResourceData.IsNewResource, hnew, hreports, hds, hget,
          World.issue, World.setData, readImport.captureReport, readImport.captureDataset,
          andThen]
    · intro report s3 hget
      cases hds : im.Datasets <;>
        simp [readImport, hwait, ResourceData.IsNewResource, hnew, hreports, hds, hget,
          World.issue, World.setData, readImport.captureReport, readImport.captureDataset,
          andThen]

/-- C8 (witness). During a create the import yields report `R1` and dataset `D1`, and
`R1` reads back as bound to `D1`: all three attributes are captured. -/
theorem readImport_capture_witness :
    specScenario.client.WaitForImportInGroupToSucceed newArtifact.remote "W" "I1" 300 =
      (.ok specScenario.im, []) ∧
    (readImport specScenario.client newArtifact 300).2.d.report_id = "R1" ∧
    (readImport specScenario.client newArtifact 300).2.d.report_original_dataset_id = "D1" ∧
    (readImport specScenario.client newArtifact 300).2.d.dataset_id = "D1" :=
  ⟨rfl,
    ((readImport_capture specScenario.client newArtifact 300 specScenario.im [] rfl).2.2
      { ID := "R1" } [] rfl rfl).1,
    (((readImport_capture specScenario.client newArtifact 300 specScenario.im [] rfl).2.2
      { ID := "R1" } [] rfl rfl).2.2 { DatasetID := "D1" } [] rfl).2.1,
    (((readImport_capture specScenario.client newArtifact 300 specScenario.im [] rfl).2.2
      { ID := "R1" } [] rfl rfl).2.2 { DatasetID := "D1" } [] rfl).2.2⟩

end Capture

/-! ## C9: authentication strategy selection -/

/-- C9. `providerConfigure` picks the first applicable strategy in the order: static
access token if `access_token` is set; else password grant if `username` and
`password` are both set; else client-credential grant if `tenant_id`, `client_id`
and `client_secret` are all set; else the Azure CLI. So a set `access_token` wins
whatever the other fields are, and a username without a password never selects the
password grant. -/
theorem providerConfigure_priority (d : ProviderData) :
    providerConfigure d =
      (if d.access_token ≠ "" then
        ClientConstructor.NewClientWithAccessToken d.access_token
      else if d.username ≠ "" ∧ d.password ≠ "" then
        ClientConstructor.NewClientWithPasswordAuth d.tenant_id d.client_id d.client_secret
          d.username d.password
      else if d.tenant_id ≠ "" ∧ d.client_id ≠ "" ∧ d.client_secret ≠ "" then
        ClientConstructor.NewClientWithClientCredentialAuth d.tenant_id d.client_id
          d.client_secret
      else ClientConstructor.NewClientWithAzureCLIAuth) ∧
    (d.access_token ≠ "" →
      providerConfigure d = ClientConstructor.NewClientWithAccessToken d.access_token) ∧
    (d.password = "" → ∀ tenant clientID clientSecret username password,
      providerConfigure d ≠
        ClientConstructor.NewClientWithPasswordAuth tenant clientID clientSecret username
          password) := by
  have hmain : providerConfigure d =
      (if d.access_token ≠ "" then
        ClientConstructor.NewClientWithAccessToken d.access_token
      else if d.username ≠ "" ∧ d.password ≠ "" then
        ClientConstructor.NewClientWithPasswordAuth d.tenant_id d.client_id d.client_secret
          d.username d.password
      else if d.tenant_id ≠ "" ∧ d.client_id ≠ "" ∧ d.client_secret ≠ "" then
        ClientConstructor.NewClientWithClientCredentialAuth d.tenant_id d.client_id
          d.client_secret
      else ClientConstructor.NewClientWithAzureCLIAuth) := by
    unfold providerConfigure
    by_cases h1 : d.access_token = ""
    · by_cases h2 : d.username = "" <;> by_cases h3 : d.password = "" <;>
        by_cases h4 : d.tenant_id = "" <;> by_cases h5 : d.client_id = "" <;>
        by_cases h6 : d.client_secret = "" <;> simp [GetOk, h1, h2, h3, h4, h5, h6]
    · simp [GetOk, h1]
  refine ⟨hmain, ?_, ?_⟩
  · intro h
    rw [hmain, if_pos h]
  · intro hp tenant clientID clientSecret username password
    rw [hmain]
    have hno : ¬ (d.username ≠ "" ∧ d.password ≠ "") := fun h => h.2 hp
    rw [if_neg hno]
    split
    · simp
    · split <;> simp

/-- C9 (witness). With every field set the static access token is chosen; with a
username, no password and the client credentials, the client-credential grant is
chosen. -/
theorem providerConfigure_priority_witness :
    providerConfigure everythingSet = ClientConstructor.NewClientWithAccessToken "tok" ∧
    usernameOnly.password = "" ∧
    providerConfigure usernameOnly ≠
      ClientConstructor.NewClientWithPasswordAuth "t" "c" "s" "u" "" ∧
    providerConfigure usernameOnly =
      ClientConstructor.NewClientWithClientCredentialAuth "t" "c" "s" :=
  ⟨(providerConfigure_priority everythingSet).2.1 (by decide), rfl,
    (providerConfigure_priority usernameOnly).2.2 rfl "t" "c" "s" "u" "", by decide⟩

/-! ## C10: token caching, sequential use -/

section TokenCache

variable {τ ρ : Type}

theorem Header.Get_Set (h : Header) (key value : String) :
    Header.Get (Header.Set h key value) key = value := by
  simp [Header.Get, Header.Set]

theorem RoundTrip_cached (t : Transport τ ρ) (rt : RoundTripper τ ρ) (req : Request)
    (h : rt.token ≠ "") :
    (RoundTrip t rt req).rt.token = rt.token ∧
    (RoundTrip t rt req).rt.fetches = rt.fetches ∧
    (RoundTrip t rt req).rt.forwarded = rt.forwarded ++ [withBearer rt.token req] := by
  simp [RoundTrip, h, RoundTrip.forward, withBearer]

theorem roundTripAll_cached (t : Transport τ ρ) (reqs : List Request)
    (rt : RoundTripper τ ρ) (h : rt.token ≠ "") :
    (roundTripAll t rt reqs).token = rt.token ∧
    (roundTripAll t rt reqs).fetches = rt.fetches ∧
    (roundTripAll t rt reqs).forwarded = rt.forwarded ++ reqs.map (withBearer rt.token) := by
  induction reqs generalizing rt with
  | nil => simp [roundTripAll]
  | cons req rest ih =>
    obtain ⟨h1, h2, h3⟩ := RoundTrip_cached t rt req h
    have h' : (RoundTrip t rt req).rt.token ≠ "" := by rw [h1]; exact h
    obtain ⟨i1, i2, i3⟩ := ih (RoundTrip t rt req).rt h'
    simp only [roundTripAll]
    rw [i1, i2, i3, h1, h2, h3]
    simp

theorem RoundTrip_first (t : Transport τ ρ) (tokenSource tokenSource1 : τ) (network : ρ)
    (token : String) (req : Request)
    (hfetch : t.getToken tokenSource = (.ok token, tokenSource1)) :
    (RoundTrip t (newBearerTokenRoundTripper tokenSource network) req).rt.token = token ∧
    (RoundTrip t (newBearerTokenRoundTripper tokenSource network) req).rt.fetches = 1 ∧
    (RoundTrip t (newBearerTokenRoundTripper tokenSource network) req).rt.forwarded =
      [withBearer token req] := by
  simp [RoundTrip, RoundTrip.fill, newBearerTokenRoundTripper, hfetch, RoundTrip.forward,
    withBearer]

/-- C10 (counterexample). The fetch returns no error but an empty token; two requests
sent one after the other through a fresh round tripper invoke the fetch twice. -/
theorem roundTrip_empty_token_fetched_again :
    emptyTokenTransport.getToken () = (.ok "", ()) ∧
    (roundTripAll emptyTokenTransport (newBearerTokenRoundTripper () ()) twoRequests).fetches =
      2 := by
  exact ⟨rfl, by decide⟩

/-- C10 (amended). Through a fresh round tripper whose first fetch succeeds with a
non-empty token, any non-empty sequence of requests sent one after another invokes
the fetch exactly once, on the first request; the token stays cached; and every
request is forwarded, in order, with `Authorization` equal to `"Bearer "` followed
by that token. If the fetch fails, the request is not forwarded, the error is
returned, and the cached token stays unset. -/
theorem roundTrip_token_cached (t : Transport τ ρ) (tokenSource : τ) (network : ρ) :
    (∀ (token : String) (tokenSource1 : τ) (req : Request) (rest : List Request),
      t.getToken tokenSource = (.ok token, tokenSource1) → token ≠ "" →
      (RoundTrip t (newBearerTokenRoundTripper tokenSource network) req).rt.fetches = 1 ∧
      (roundTripAll t (newBearerTokenRoundTripper tokenSource network) (req :: rest)).fetches =
        1 ∧
      (roundTripAll t (newBearerTokenRoundTripper tokenSource network) (req :: rest)).token =
        token ∧
      (roundTripAll t (newBearerTokenRoundTripper tokenSource network) (req :: rest)).forwarded =
        (req :: rest).map (withBearer token) ∧
      (∀ sent ∈ (roundTripAll t (newBearerTokenRoundTripper tokenSource network)
          (req :: rest)).forwarded,
        Header.Get sent.Header "Authorization" = "Bearer " ++ token)) ∧
    (∀ (err : GoError) (tokenSource1 : τ) (req : Request),
      t.getToken tokenSource = (.error err, tokenSource1) →
      (RoundTrip t (newBearerTokenRoundTripper tokenSource network) req).result = .error err ∧
      (RoundTrip t (newBearerTokenRoundTripper tokenSource network) req).rt.forwarded = [] ∧
      (RoundTrip t (newBearerTokenRoundTripper tokenSource network) req).rt.token = "") := by
  constructor
  · intro token tokenSource1 req rest hfetch hne
    obtain ⟨f1, f2, f3⟩ := RoundTrip_first t tokenSource tokenSource1 network token req hfetch
    have hcached : (RoundTrip t (newBearerTokenRoundTripper tokenSource network) req).rt.token ≠
        "" := by rw [f1]; exact hne
    obtain ⟨a1, a2, a3⟩ := roundTripAll_cached t rest _ hcached
    have hall : (roundTripAll t (newBearerTokenRoundTripper tokenSource network)
        (req :: rest)).forwarded = (req :: rest).map (withBearer token) := by
      simp only [roundTripAll]
      rw [a3, f1, f3]
      simp
    refine ⟨f2, ?_, ?_, hall, ?_⟩
    · simp only [roundTripAll]
      rw [a2, f2]
    · simp only [roundTripAll]
      rw [a1, f1]
    · intro sent hsent
      rw [hall] at hsent
      obtain ⟨orig, -, rfl⟩ := List.mem_map.mp hsent
      exact Header.Get_Set _ _ _
  · intro err tokenSource1 req hfetch
    simp [RoundTrip, RoundTrip.fill, newBearerTokenRoundTripper, hfetch]

/-- C10 (witness). The token source would hand out `t1`, then `t2`; two requests
through a fresh round tripper fetch once and both go out with `Bearer t1`. With
nothing to hand out the fetch fails and the request is not forwarded. -/
theorem roundTrip_token_cached_witness :
    queueTransport.getToken ["t1", "t2"] = (.ok "t1", ["t2"]) ∧ "t1" ≠ "" ∧
    (roundTripAll queueTransport (newBearerTokenRoundTripper ["t1", "t2"] ())
      twoRequests).fetches = 1 ∧
    (roundTripAll queueTransport (newBearerTokenRoundTripper ["t1", "t2"] ())
      twoRequests).forwarded = twoRequests.map (withBearer "t1") ∧
    queueTransport.getToken [] = (.error (.api 400 "invalid_grant"), []) ∧
    (RoundTrip queueTransport (newBearerTokenRoundTripper [] ())
      { Method := "GET", URL := "https://api.powerbi.com/v1.0/myorg/groups",
        Header := [] }).rt.forwarded = [] :=
  ⟨rfl, by decide,
    ((roundTrip_token_cached queueTransport ["t1", "t2"] ()).1 "t1" ["t2"] _ _ rfl
      (by decide)).2.1,
    ((roundTrip_token_cached queueTransport ["t1", "t2"] ()).1 "t1" ["t2"] _ _ rfl
      (by decide)).2.2.2.1,
    rfl,
    ((roundTrip_token_cached queueTransport [] ()).2 (.api 400 "invalid_grant") [] _ rfl).2.1⟩

end TokenCache

/-! ## C11: the caller's request after `RoundTrip` -/

section CallerRequest

variable {τ ρ : Type}

/-- Whenever `RoundTrip` forwards a request, the caller's request reads after the call
like the forwarded one: `newRequest := *req` copies the struct, the `Header` map is
shared, and `Header.Set` writes into it. -/
theorem RoundTrip_callerRequest_eq_forwarded (t : Transport τ ρ) (rt : RoundTripper τ ρ)
    (req sent : Request)
    (h : (RoundTrip t rt req).rt.forwarded = rt.forwarded ++ [sent]) :
    (RoundTrip t rt req).callerRequest = sent := by
  unfold RoundTrip at h ⊢
  by_cases htoken : rt.token = ""
  · simp only [htoken, if_true] at h ⊢
    cases hfill : RoundTrip.fill t rt with
    | mk err rt1 =>
      have hfwd : rt1.forwarded = rt.forwarded := by
        unfold RoundTrip.fill at hfill
        simp only [htoken, if_true] at hfill
        cases hget : (t.getToken rt.tokenSource).1 with
        | error e =>
          simp only [hget] at hfill
          rw [← (Prod.mk.inj hfill).2]
        | ok token =>
          simp only [hget] at hfill
          rw [← (Prod.mk.inj hfill).2]
      cases err with
      | some e =>
        simp only [hfill] at h
        rw [hfwd] at h
        simp at h
      | none =>
        simp only [hfill, RoundTrip.forward] at h ⊢
        rw [hfwd] at h
        simpa using h
  · simp only [htoken, if_false, RoundTrip.forward] at h ⊢
    simpa using h

/-- C11 (the code at the failing input). A caller sends a request without an
`Authorization` header through a fresh round tripper whose fetch yields `t1`. The
request is forwarded with `Bearer t1`, and after the call the caller's own request
carries `Authorization: Bearer t1` as well: its header set is not what it was. -/
theorem RoundTrip_writes_caller_header :
    Header.Get groupsRequest.Header "Authorization" = "" ∧
    (RoundTrip queueTransport (newBearerTokenRoundTripper ["t1"] ())
      groupsRequest).rt.forwarded = [withBearer "t1" groupsRequest] ∧
    Header.Get (RoundTrip queueTransport (newBearerTokenRoundTripper ["t1"] ())
      groupsRequest).callerRequest.Header "Authorization" = "Bearer t1" ∧
    (RoundTrip queueTransport (newBearerTokenRoundTripper ["t1"] ())
      groupsRequest).callerRequest ≠ groupsRequest := by
  decide

end CallerRequest

/-! ## C12: read of a deleted artifact -/

section ReadDeleted

variable {σ : Type}

theorem readImport_of_wait_error (c : Client σ) (w : World σ) (timeout : Nat)
    (err : GoError) (s1 : σ)
    (hwait : c.WaitForImportInGroupToSucceed w.remote w.d.workspace_id w.d.id timeout =
      (.error err, s1)) :
    readImport c w timeout =
      (some err,
        { d := w.d
          remote := s1
          calls := w.calls ++
            [Call.WaitForImportInGroupToSucceed w.d.workspace_id w.d.id timeout] }) := by
  simp [readImport, hwait, World.issue]

/-- C12. Let the import lookup of `readPBIX` fail with `err`. If `isHTTP404Error`
recognises `err`, `readPBIX` returns success with the resource id set to empty,
having issued the lookup and nothing else. If it does not, `readPBIX` returns `err`
itself, the id and every other attribute as they were, again having issued the
lookup only. And whenever `readPBIX` returns having issued a parameter or
datasource read, the import lookup had succeeded. -/
theorem readPBIX_lookup_failure (isHTTP404Error : Option GoError → Bool) (c : Client σ)
    (w : World σ) :
    (∀ (err : GoError) (s1 : σ),
      c.WaitForImportInGroupToSucceed w.remote w.d.workspace_id w.d.id w.d.timeoutRead =
        (.error err, s1) →
      (isHTTP404Error (some err) = true →
        readPBIX isHTTP404Error c w =
          .returned (none,
            { d := { w.d with id := "" }
              remote := s1
              calls := w.calls ++
                [Call.WaitForImportInGroupToSucceed w.d.workspace_id w.d.id
                  w.d.timeoutRead] })) ∧
      (isHTTP404Error (some err) = false →
        readPBIX isHTTP404Error c w =
          .returned (some err,
            { d := w.d
              remote := s1
              calls := w.calls ++
                [Call.WaitForImportInGroupToSucceed w.d.workspace_id w.d.id
                  w.d.timeoutRead] }))) ∧
    (∀ (result : Option GoError × World σ),
      readPBIX isHTTP404Error c w = .returned result →
      (∃ call ∈ result.2.calls.drop w.calls.length, call.isPull = true) →
      ∃ (im : GetImportInGroupResponse) (s2 : σ),
        c.WaitForImportInGroupToSucceed w.remote w.d.workspace_id w.d.id w.d.timeoutRead =
          (.ok im, s2)) := by
  have hfail : ∀ (err : GoError) (s1 : σ),
      c.WaitForImportInGroupToSucceed w.remote w.d.workspace_id w.d.id w.d.timeoutRead =
        (.error err, s1) →
      (isHTTP404Error (some err) = true →
        readPBIX isHTTP404Error c w =
          .returned (none,
            { d := { w.d with id := "" }
              remote := s1
              calls := w.calls ++
                [Call.WaitForImportInGroupToSucceed w.d.workspace_id w.d.id
                  w.d.timeoutRead] })) ∧
      (isHTTP404Error (some err) = false →
        readPBIX isHTTP404Error c w =
          .returned (some err,
            { d := w.d
              remote := s1
              calls := w.calls ++
                [Call.WaitForImportInGroupToSucceed w.d.workspace_id w.d.id
                  w.d.timeoutRead] })) := by
    intro err s1 hwait
    have hread := readImport_of_wait_error c w w.d.timeoutRead err s1 hwait
    constructor
    · intro h404
      simp [readPBIX, hread, h404, World.setData, ResourceData.Timeout]
    · intro h404
      simp [readPBIX, hread, h404, ResourceData.Timeout]
  refine ⟨hfail, ?_⟩
  intro result hresult hpull
  cases hwait : c.WaitForImportInGroupToSucceed w.remote w.d.workspace_id w.d.id
      w.d.timeoutRead with
  | mk outcome s1 =>
    cases outcome with
    | ok im => exact ⟨im, s1, rfl⟩
    | error err =>
      exfalso
      obtain ⟨call, hmem, hcall⟩ := hpull
      cases h404 : isHTTP404Error (some err) with
      | true =>
        rw [(hfail err s1 hwait).1 h404] at hresult
        have hr := Run.returned.inj hresult
        rw [← hr] at hmem
        simp at hmem
        rw [hmem] at hcall
        simp [Call.isPull] at hcall
      | false =>
        rw [(hfail err s1 hwait).2 h404] at hresult
        have hr := Run.returned.inj hresult
        rw [← hr] at hmem
        simp at hmem
        rw [hmem] at hcall
        simp [Call.isPull] at hcall

/-- C12 (witness). At a refresh of the example artifact the lookup of import `I1`
fails. With a 404 the read succeeds, clears the id and issues nothing but the
lookup; with a 500 the read returns that error and the id stays `I1`. -/
theorem readPBIX_lookup_failure_witness :
    (specScenario.clientLookupFails (.api 404 "not found")).WaitForImportInGroupToSucceed
      specRefresh.remote "W" "I1" 300 = (.error (.api 404 "not found"), []) ∧
    statusIs404 (some (.api 404 "not found")) = true ∧
    readPBIX statusIs404 (specScenario.clientLookupFails (.api 404 "not found")) specRefresh =
      .returned (none,
        { d := { specCreated with id := "" }
          remote := []
          calls := [Call.WaitForImportInGroupToSucceed "W" "I1" 300] }) ∧
    statusIs404 (some (.api 500 "server error")) = false ∧
    readPBIX statusIs404 (specScenario.clientLookupFails (.api 500 "server error"))
      specRefresh =
      .returned (some (.api 500 "server error"),
        { d := specCreated
          remote := []
          calls := [Call.WaitForImportInGroupToSucceed "W" "I1" 300] }) :=
  ⟨rfl, rfl,
    ((readPBIX_lookup_failure statusIs404
      (specScenario.clientLookupFails (.api 404 "not found")) specRefresh).1
      (.api 404 "not found") [] rfl).1 rfl,
    rfl,
    ((readPBIX_lookup_failure statusIs404
      (specScenario.clientLookupFails (.api 500 "server error")) specRefresh).1
      (.api 500 "server error") [] rfl).2 rfl⟩

end ReadDeleted

/-! ## C14: datasource pull on partially populated connections -/

/-- One comparison of the matching expression dereferences a nil pointer exactly
when the rule's field is non-empty and the connection's field is absent. -/
theorem readPBIXDatasources.fieldMatches_faults_iff (state : String) (api : Option String) :
    readPBIXDatasources.fieldMatches state api = none ↔ (state ≠ "" ∧ api = none) := by
  unfold readPBIXDatasources.fieldMatches
  by_cases h : state = ""
  · simp [h]
  · cases api <;> simp [h]

/-- Against a connection that carries none of url, server and database, the matching
expression faults for every rule that targets at least one of them. -/
theorem readPBIXDatasources.apiMatchesState_faults_on_empty (rule : Datasource) :
    readPBIXDatasources.apiMatchesState rule { URL := none, Database := none, Server := none } =
      none ↔ (rule.url ≠ "" ∨ rule.server ≠ "" ∨ rule.database ≠ "") := by
  unfold readPBIXDatasources.apiMatchesState readPBIXDatasources.fieldMatches
  by_cases hu : rule.url = "" <;> by_cases hs : rule.server = "" <;>
    by_cases hd : rule.database = "" <;> simp [hu, hs, hd]

/-- C14 (the code at the failing input). The dataset has a web datasource and a SQL
datasource; the SQL one has no url. The tracked rule targets the url of the web
datasource, which confirms it. The matching step still goes on to the SQL
datasource, compares the rule's url with the absent one, and dereferences a nil
pointer: the step returns no result and neither does the pull. -/
theorem readPBIXDatasources_faults_on_absent_url :
    ruleConfirmedBy webRule webDatasource.ConnectionDetails = true ∧
    sqlOnlyDatasource.ConnectionDetails.URL = none ∧
    readPBIXDatasources.anyAPIMatchesState webRule mixedScenario.datasources false = none ∧
    readPBIXDatasources.pullAll mixedScenario.datasources [webRule] = none ∧
    readPBIXDatasources mixedScenario.client webRulePull = .nilPointerDereference := by
  decide

end PowerBI
